import Mathlib

/-!
Verification development for the `ink` creature-generation and particle-physics
core.  The TypeScript source is shallowly embedded: JavaScript numbers are
modelled as exact rationals (`ℚ`), 32-bit integer operations (`|0`, `imul`,
`>>>`, `&`) as arithmetic modulo `2^32` on `ℕ`/`ℤ`, typed arrays as `List ℚ`
with `List.set`/`List.getD`, and fallible lookups as `Option`.  The JS
transcendental primitives (`Math.PI`, `Math.cos`, `Math.sin`, `Math.log10`)
have no exact rational embedding; they are abstracted as an explicit record of
functions (`JsMath`) threaded through the generators, and `Math.log10` is
additionally modelled over `ℝ` (via `Real.logb`) where a claim is about the
logarithm itself.  The noise kernel (`getFlowVelocity`) is, per the design
document, a stable external primitive and is abstracted as a velocity-function
parameter of the physics engine.
-/

namespace Ink

/-! ### Seed/Hash engine (src/lib/generation/hash.ts) -/

/-- JavaScript `ToInt32`: reduce an integer to the signed 32-bit range. -/
def toInt32 (n : ℤ) : ℤ := (n + 2 ^ 31) % 2 ^ 32 - 2 ^ 31

/-- One iteration of the polynomial rolling hash:
`hash = (hash << 5) - hash + char; hash = hash & hash`. -/
def hashStringStep (hash : ℤ) (c : ℕ) : ℤ :=
  toInt32 (toInt32 (hash * 32) - hash + c)

/-- `hashString(str)`: polynomial rolling hash of the character codes,
followed by `Math.abs`. -/
def hashString (s : String) : ℕ :=
  (s.data.foldl (fun h c => hashStringStep h c.toNat) 0).natAbs

/-- `hashToFloat(hash, offset)`: re-hash the string `"{hash}-{offset}"` and
normalize to `[0,1)` by `% 10000 / 10000`. -/
def hashToFloat (hash : ℕ) (offset : ℕ) : ℚ :=
  ((hashString (toString hash ++ "-" ++ toString offset)) % 10000 : ℕ) / 10000

/-! ### Trait vectors (src/lib/generation/traitVocabulary.ts) -/

/-- 4D trait-space coordinates that drive visual form generation. -/
structure TraitVector where
  geometricOrganic : ℚ
  connectedIsolated : ℚ
  intensityScale : ℚ
  motionTempo : ℚ
  deriving Repr, DecidableEq

/-- Hand-curated trait embeddings, in source (insertion) order. -/
def TRAIT_EMBEDDINGS : List (String × TraitVector) :=
  [ ("analytical", ⟨0.1, 0.4, 0.5, 0.35⟩),
    ("precise", ⟨0.05, 0.5, 0.6, 0.4⟩),
    ("methodical", ⟨0.15, 0.55, 0.45, 0.25⟩),
    ("logical", ⟨0.1, 0.45, 0.5, 0.35⟩),
    ("systematic", ⟨0.08, 0.35, 0.55, 0.3⟩),
    ("structured", ⟨0.05, 0.5, 0.5, 0.3⟩),
    ("organized", ⟨0.12, 0.4, 0.45, 0.35⟩),
    ("creative", ⟨0.85, 0.45, 0.7, 0.6⟩),
    ("intuitive", ⟨0.9, 0.5, 0.5, 0.55⟩),
    ("playful", ⟨0.8, 0.3, 0.75, 0.85⟩),
    ("adaptive", ⟨0.7, 0.4, 0.6, 0.65⟩),
    ("imaginative", ⟨0.92, 0.55, 0.65, 0.6⟩),
    ("expressive", ⟨0.88, 0.35, 0.8, 0.7⟩),
    ("artistic", ⟨0.95, 0.5, 0.65, 0.55⟩),
    ("innovative", ⟨0.75, 0.45, 0.7, 0.65⟩),
    ("collaborative", ⟨0.5, 0.1, 0.6, 0.5⟩),
    ("helpful", ⟨0.55, 0.15, 0.5, 0.5⟩),
    ("communicative", ⟨0.5, 0.08, 0.6, 0.65⟩),
    ("empathetic", ⟨0.65, 0.12, 0.45, 0.4⟩),
    ("supportive", ⟨0.6, 0.1, 0.5, 0.45⟩),
    ("social", ⟨0.55, 0.05, 0.65, 0.6⟩),
    ("focused", ⟨0.3, 0.8, 0.7, 0.35⟩),
    ("independent", ⟨0.4, 0.9, 0.6, 0.45⟩),
    ("thorough", ⟨0.25, 0.75, 0.55, 0.3⟩),
    ("introspective", ⟨0.6, 0.85, 0.4, 0.25⟩),
    ("autonomous", ⟨0.35, 0.92, 0.65, 0.5⟩),
    ("reserved", ⟨0.45, 0.8, 0.35, 0.3⟩),
    ("assertive", ⟨0.35, 0.5, 0.9, 0.7⟩),
    ("confident", ⟨0.4, 0.55, 0.85, 0.6⟩),
    ("direct", ⟨0.2, 0.6, 0.8, 0.55⟩),
    ("bold", ⟨0.45, 0.5, 0.95, 0.75⟩),
    ("determined", ⟨0.3, 0.65, 0.85, 0.6⟩),
    ("driven", ⟨0.35, 0.6, 0.9, 0.7⟩),
    ("patient", ⟨0.6, 0.5, 0.25, 0.2⟩),
    ("gentle", ⟨0.75, 0.4, 0.2, 0.25⟩),
    ("careful", ⟨0.35, 0.55, 0.3, 0.25⟩),
    ("measured", ⟨0.3, 0.5, 0.35, 0.2⟩),
    ("calm", ⟨0.55, 0.5, 0.25, 0.15⟩),
    ("thoughtful", ⟨0.5, 0.6, 0.4, 0.3⟩),
    ("energetic", ⟨0.6, 0.4, 0.7, 0.9⟩),
    ("dynamic", ⟨0.55, 0.45, 0.75, 0.85⟩),
    ("responsive", ⟨0.5, 0.35, 0.6, 0.8⟩),
    ("quick", ⟨0.4, 0.5, 0.6, 0.9⟩),
    ("agile", ⟨0.55, 0.45, 0.65, 0.85⟩),
    ("deliberate", ⟨0.3, 0.55, 0.5, 0.15⟩),
    ("steady", ⟨0.35, 0.5, 0.45, 0.2⟩),
    ("persistent", ⟨0.25, 0.6, 0.6, 0.25⟩),
    ("curious", ⟨0.6, 0.4, 0.6, 0.6⟩),
    ("versatile", ⟨0.5, 0.45, 0.55, 0.55⟩),
    ("balanced", ⟨0.5, 0.5, 0.5, 0.5⟩),
    ("practical", ⟨0.35, 0.5, 0.55, 0.45⟩),
    ("reliable", ⟨0.3, 0.45, 0.5, 0.35⟩),
    ("efficient", ⟨0.25, 0.5, 0.6, 0.5⟩) ]

/-- `hashTraitToVector(trait, seed)`: deterministic vector for unknown traits,
biased toward middle values. -/
def hashTraitToVector (trait : String) (seed : ℕ) : TraitVector :=
  let h := hashString (trait ++ toString seed)
  { geometricOrganic := hashToFloat h 0 * 0.6 + 0.2
    connectedIsolated := hashToFloat h 1 * 0.6 + 0.2
    intensityScale := hashToFloat h 2 * 0.4 + 0.3
    motionTempo := hashToFloat h 3 * 0.6 + 0.2 }

/-- Helper for JS `String.prototype.includes`: does `s` start with `pat`? -/
def leadsWith : List Char → List Char → Bool
  | [], _ => true
  | _ :: _, [] => false
  | p :: ps, c :: cs => p == c && leadsWith ps cs

/-- Helper for JS `String.prototype.includes`: does `pat` occur inside `s`? -/
def hasSub (pat : List Char) : List Char → Bool
  | [] => pat.isEmpty
  | c :: cs => leadsWith pat (c :: cs) || hasSub pat cs

/-- JS `s.includes(t)` on the character sequences. -/
def strContains (s t : String) : Bool :=
  hasSub t.data s.data

/-- `findTraitVector(trait)`: exact vocabulary match after
lowercase/trim normalization, else first substring containment hit
(either direction) in insertion order, else `null`. -/
def findTraitVector (trait : String) : Option TraitVector :=
  match TRAIT_EMBEDDINGS.find? (fun kv => kv.1 == trait.toLower.trim) with
  | some kv => some kv.2
  | none =>
    match TRAIT_EMBEDDINGS.find?
        (fun kv => strContains trait.toLower.trim kv.1 ||
          strContains kv.1 trait.toLower.trim) with
    | some kv => some kv.2
    | none => none

/-- Vector resolved for one trait string: vocabulary lookup with hash
fallback, exactly the per-iteration lookup of `traitsToVector`. -/
def resolveTrait (trait : String) (seed : ℕ) : TraitVector :=
  (findTraitVector trait).getD (hashTraitToVector trait seed)

/-- Accumulator of the `traitsToVector` loop: four running weighted sums plus
the running total weight. -/
structure TVAcc where
  go : ℚ
  ci : ℚ
  is : ℚ
  mt : ℚ
  tw : ℚ
  deriving Repr, DecidableEq

/-- One iteration of the `traitsToVector` loop at position `i` with trait
string `t`. -/
def traitsStep (seed : ℕ) (acc : TVAcc) (it : ℕ × String) : TVAcc :=
  let weight := max 0.2 (1.0 - (it.1 : ℚ) * 0.08)
  let vector := resolveTrait it.2 seed
  { go := acc.go + vector.geometricOrganic * weight
    ci := acc.ci + vector.connectedIsolated * weight
    is := acc.is + vector.intensityScale * weight
    mt := acc.mt + vector.motionTempo * weight
    tw := acc.tw + weight }

/-- `traitsToVector(traits, seed)`: weighted average of per-trait vectors,
earlier traits weighted more heavily; center vector for empty input. -/
def traitsToVector (traits : List String) (seed : ℕ) : TraitVector :=
  if traits.isEmpty then
    ⟨0.5, 0.5, 0.5, 0.5⟩
  else
    let acc := traits.enum.foldl (traitsStep seed) ⟨0, 0, 0, 0, 0⟩
    { geometricOrganic := acc.go / acc.tw
      connectedIsolated := acc.ci / acc.tw
      intensityScale := acc.is / acc.tw
      motionTempo := acc.mt / acc.tw }

/-- Positional weight of the trait at index `i`
(floor 0.2, step −0.08 per index), as stated by the specification. -/
def specWeight (i : ℕ) : ℚ := max 0.2 (1.0 - (i : ℚ) * 0.08)

/-- Specification-side aggregate: the weighted average of the per-trait
vectors across all four axes, normalized by the total weight, with the exact
center vector for empty input.  Written from the specification text, to be
compared against `traitsToVector`. -/
def specTraitsToVector (traits : List String) (seed : ℕ) : TraitVector :=
  if traits.isEmpty then
    ⟨0.5, 0.5, 0.5, 0.5⟩
  else
    let items := traits.enum.map (fun it => (specWeight it.1, resolveTrait it.2 seed))
    let total := (items.map (fun x => x.1)).sum
    { geometricOrganic := (items.map (fun x => x.1 * x.2.geometricOrganic)).sum / total
      connectedIsolated := (items.map (fun x => x.1 * x.2.connectedIsolated)).sum / total
      intensityScale := (items.map (fun x => x.1 * x.2.intensityScale)).sum / total
      motionTempo := (items.map (fun x => x.1 * x.2.motionTempo)).sum / total }

lemma traitsStep_foldl (seed : ℕ) (l : List (ℕ × String)) (a : TVAcc) :
    l.foldl (traitsStep seed) a =
      { go := a.go + (l.map (fun it => specWeight it.1 * (resolveTrait it.2 seed).geometricOrganic)).sum
        ci := a.ci + (l.map (fun it => specWeight it.1 * (resolveTrait it.2 seed).connectedIsolated)).sum
        is := a.is + (l.map (fun it => specWeight it.1 * (resolveTrait it.2 seed).intensityScale)).sum
        mt := a.mt + (l.map (fun it => specWeight it.1 * (resolveTrait it.2 seed).motionTempo)).sum
        tw := a.tw + (l.map (fun it => specWeight it.1)).sum } := by
  induction l generalizing a with
  | nil => simp
  | cons hd tl ih =>
    simp only [List.foldl_cons, List.map_cons, List.sum_cons, ih]
    simp [traitsStep, specWeight]
    refine ⟨by ring, by ring, by ring, by ring, by ring⟩

/-- Membership of a trait vector in the documented unit hypercube. -/
def inUnit (v : TraitVector) : Prop :=
  0 ≤ v.geometricOrganic ∧ v.geometricOrganic ≤ 1 ∧
  0 ≤ v.connectedIsolated ∧ v.connectedIsolated ≤ 1 ∧
  0 ≤ v.intensityScale ∧ v.intensityScale ≤ 1 ∧
  0 ≤ v.motionTempo ∧ v.motionTempo ≤ 1

instance (v : TraitVector) : Decidable (inUnit v) := by
  unfold inUnit; infer_instance

lemma hashToFloat_nonneg (h o : ℕ) : 0 ≤ hashToFloat h o := by
  unfold hashToFloat
  positivity

lemma hashToFloat_lt_one (h o : ℕ) : hashToFloat h o ≤ 9999 / 10000 := by
  unfold hashToFloat
  have hb : (hashString (toString h ++ "-" ++ toString o)) % 10000 ≤ 9999 := by
    omega
  have : ((hashString (toString h ++ "-" ++ toString o) % 10000 : ℕ) : ℚ) ≤ 9999 := by
    exact_mod_cast hb
  rw [div_le_div_iff₀ (by norm_num) (by norm_num)]
  nlinarith

lemma hashTraitToVector_bands (trait : String) (seed : ℕ) :
    0.2 ≤ (hashTraitToVector trait seed).geometricOrganic ∧
      (hashTraitToVector trait seed).geometricOrganic ≤ 0.8 ∧
    0.2 ≤ (hashTraitToVector trait seed).connectedIsolated ∧
      (hashTraitToVector trait seed).connectedIsolated ≤ 0.8 ∧
    0.3 ≤ (hashTraitToVector trait seed).intensityScale ∧
      (hashTraitToVector trait seed).intensityScale ≤ 0.7 ∧
    0.2 ≤ (hashTraitToVector trait seed).motionTempo ∧
      (hashTraitToVector trait seed).motionTempo ≤ 0.8 := by
  unfold hashTraitToVector
  set h := hashString (trait ++ toString seed) with hh
  have b0 := hashToFloat_nonneg h 0
  have b0' := hashToFloat_lt_one h 0
  have b1 := hashToFloat_nonneg h 1
  have b1' := hashToFloat_lt_one h 1
  have b2 := hashToFloat_nonneg h 2
  have b2' := hashToFloat_lt_one h 2
  have b3 := hashToFloat_nonneg h 3
  have b3' := hashToFloat_lt_one h 3
  refine ⟨by nlinarith, by nlinarith, by nlinarith, by nlinarith,
    by nlinarith, by nlinarith, by nlinarith, by nlinarith⟩

lemma vocab_inUnit : ∀ kv ∈ TRAIT_EMBEDDINGS, inUnit kv.2 := by
  intro kv hkv
  fin_cases hkv <;> norm_num [inUnit]

lemma findTraitVector_inUnit {trait : String} {v : TraitVector}
    (h : findTraitVector trait = some v) : inUnit v := by
  unfold findTraitVector at h
  rcases hf : TRAIT_EMBEDDINGS.find? (fun kv => kv.1 == trait.toLower.trim) with _ | kv
  · rw [hf] at h
    rcases hg : TRAIT_EMBEDDINGS.find?
        (fun kv => strContains trait.toLower.trim kv.1 || strContains kv.1 trait.toLower.trim)
        with _ | kv'
    · rw [hg] at h; exact absurd h (by simp)
    · rw [hg] at h
      simp only [Option.some.injEq] at h
      subst h
      exact vocab_inUnit kv' (List.mem_of_find?_eq_some hg)
  · rw [hf] at h
    simp only [Option.some.injEq] at h
    subst h
    exact vocab_inUnit kv (List.mem_of_find?_eq_some hf)

lemma resolveTrait_inUnit (trait : String) (seed : ℕ) :
    inUnit (resolveTrait trait seed) := by
  unfold resolveTrait
  rcases hf : findTraitVector trait with _ | v
  · simp only [Option.getD_none]
    have hb := hashTraitToVector_bands trait seed
    unfold inUnit
    refine ⟨by linarith [hb.1], by linarith [hb.2.1], by linarith [hb.2.2.1],
      by linarith [hb.2.2.2.1], by linarith [hb.2.2.2.2.1], by linarith [hb.2.2.2.2.2.1],
      by linarith [hb.2.2.2.2.2.2.1], by linarith [hb.2.2.2.2.2.2.2]⟩
  · simp only [Option.getD_some]
    exact findTraitVector_inUnit hf

lemma specWeight_pos (i : ℕ) : 0 < specWeight i := by
  unfold specWeight
  have : (0.2 : ℚ) ≤ max 0.2 (1.0 - (i : ℚ) * 0.08) := le_max_left _ _
  linarith

lemma weighted_sum_bounds (seed : ℕ) (f : TraitVector → ℚ)
    (hf : ∀ t, 0 ≤ f (resolveTrait t seed) ∧ f (resolveTrait t seed) ≤ 1)
    (l : List (ℕ × String)) :
    0 ≤ (l.map (fun it => specWeight it.1 * f (resolveTrait it.2 seed))).sum ∧
      (l.map (fun it => specWeight it.1 * f (resolveTrait it.2 seed))).sum ≤
        (l.map (fun it => specWeight it.1)).sum := by
  induction l with
  | nil => simp
  | cons hd tl ih =>
    simp only [List.map_cons, List.sum_cons]
    have hw := specWeight_pos hd.1
    have hv := hf hd.2
    constructor
    · have : 0 ≤ specWeight hd.1 * f (resolveTrait hd.2 seed) := by nlinarith [hv.1]
      linarith [ih.1]
    · have : specWeight hd.1 * f (resolveTrait hd.2 seed) ≤ specWeight hd.1 := by
        nlinarith [hv.2]
      linarith [ih.2]

lemma totalWeight_pos (l : List (ℕ × String)) (hne : l ≠ []) :
    0 < (l.map (fun it => specWeight it.1)).sum := by
  cases l with
  | nil => exact absurd rfl hne
  | cons hd tl =>
    simp only [List.map_cons, List.sum_cons]
    have h1 := specWeight_pos hd.1
    have h2 := (weighted_sum_bounds 0 (fun _ => 1) (fun _ => ⟨zero_le_one, le_refl 1⟩) tl).1
    have h3 : (tl.map (fun it => specWeight it.1 * 1)).sum =
        (tl.map (fun it => specWeight it.1)).sum := by
      simp
    rw [h3] at h2
    linarith

/-- C3: the source loop of `traitsToVector` computes exactly the
specification's position-weighted average (weight `max(0.2, 1 − 0.08·i)`,
normalized by total weight, with the same vocabulary/substring/hash lookup
chain), and an empty trait list yields the exact center vector. -/
theorem traitsToVector_eq_spec (traits : List String) (seed : ℕ) :
    traitsToVector traits seed = specTraitsToVector traits seed ∧
    traitsToVector [] seed = ⟨0.5, 0.5, 0.5, 0.5⟩ := by
  constructor
  · unfold traitsToVector specTraitsToVector
    rcases he : traits.isEmpty with _ | _
    · simp only [he, Bool.false_eq_true, if_false]
      rw [traitsStep_foldl]
      simp [List.map_map, Function.comp_def, specWeight]
    · simp [he]
  · rfl

/-- C4: every component of the aggregated trait vector lies in `[0,1]` for
every trait list and seed, and each hash-synthesized fallback vector has
`intensityScale` in `[0.3,0.7]` and its other three components in
`[0.2,0.8]`. -/
theorem traitsToVector_range (traits : List String) (seed : ℕ) (trait : String) :
    inUnit (traitsToVector traits seed) ∧
    (0.2 ≤ (hashTraitToVector trait seed).geometricOrganic ∧
      (hashTraitToVector trait seed).geometricOrganic ≤ 0.8 ∧
     0.2 ≤ (hashTraitToVector trait seed).connectedIsolated ∧
      (hashTraitToVector trait seed).connectedIsolated ≤ 0.8 ∧
     0.3 ≤ (hashTraitToVector trait seed).intensityScale ∧
      (hashTraitToVector trait seed).intensityScale ≤ 0.7 ∧
     0.2 ≤ (hashTraitToVector trait seed).motionTempo ∧
      (hashTraitToVector trait seed).motionTempo ≤ 0.8) := by
  refine ⟨?_, hashTraitToVector_bands trait seed⟩
  unfold traitsToVector
  rcases he : traits.isEmpty with _ | _
  · simp only [he, Bool.false_eq_true, if_false]
    rw [traitsStep_foldl]
    have hne : traits.enum ≠ [] := by
      intro hnil
      have : traits = [] := by
        have := congrArg List.length hnil
        simpa using this
      rw [this] at he
      simp at he
    have htw := totalWeight_pos traits.enum hne
    have hgo := weighted_sum_bounds seed (fun v => v.geometricOrganic)
      (fun t => ⟨(resolveTrait_inUnit t seed).1, (resolveTrait_inUnit t seed).2.1⟩) traits.enum
    have hci := weighted_sum_bounds seed (fun v => v.connectedIsolated)
      (fun t => ⟨(resolveTrait_inUnit t seed).2.2.1, (resolveTrait_inUnit t seed).2.2.2.1⟩)
      traits.enum
    have his := weighted_sum_bounds seed (fun v => v.intensityScale)
      (fun t => ⟨(resolveTrait_inUnit t seed).2.2.2.2.1,
        (resolveTrait_inUnit t seed).2.2.2.2.2.1⟩) traits.enum
    have hmt := weighted_sum_bounds seed (fun v => v.motionTempo)
      (fun t => ⟨(resolveTrait_inUnit t seed).2.2.2.2.2.2.1,
        (resolveTrait_inUnit t seed).2.2.2.2.2.2.2⟩) traits.enum
    unfold inUnit
    simp only [zero_add]
    refine ⟨div_nonneg hgo.1 (le_of_lt htw), (div_le_one htw).mpr hgo.2,
      div_nonneg hci.1 (le_of_lt htw), (div_le_one htw).mpr hci.2,
      div_nonneg his.1 (le_of_lt htw), (div_le_one htw).mpr his.2,
      div_nonneg hmt.1 (le_of_lt htw), (div_le_one htw).mpr hmt.2⟩
  · simp only [he, if_true]
    unfold inUnit
    norm_num

/-! ### Maturity classifier (src/lib/creature/maturity.ts)

`Math.log10` is transcendental, so `getDetailLevel` is modelled twice: over
`ℚ` with the logarithm abstracted as a function parameter (used when threading
the config through the computable generators), and over `ℝ` with the actual
base-10 logarithm (used to settle the claim about the formula itself). -/

/-- Abstraction of the JS transcendental primitives used by the generators. -/
structure JsMath where
  pi : ℚ
  cos : ℚ → ℚ
  sin : ℚ → ℚ
  log10 : ℚ → ℚ

/-- Trivial instantiation of the transcendental primitives, used only to
instantiate universally quantified theorems at a concrete input. -/
def jsMath0 : JsMath := ⟨0, fun _ => 0, fun _ => 0, fun _ => 0⟩

/-- Maturity stage based on session count. -/
inductive MaturityStage where
  | nascent
  | developing
  | mature
  | elder
  deriving Repr, DecidableEq

/-- Maturity configuration derived from session count. -/
structure MaturityConfig where
  stage : MaturityStage
  sessionsCount : ℚ
  maxEyes : ℕ
  hasNucleus : Bool
  hasCirculation : Bool
  appendageComplexity : ℕ
  detailLevel : ℚ
  deriving Repr, DecidableEq

/-- `getStage(sessionsCount)`: band thresholds `10`/`100`/`500`. -/
def getStage (sessionsCount : ℚ) : MaturityStage :=
  if sessionsCount ≤ 10 then .nascent
  else if sessionsCount ≤ 100 then .developing
  else if sessionsCount ≤ 500 then .mature
  else .elder

/-- `getDetailLevel(sessionsCount)` with `Math.log10` abstracted:
`min(1, log10(max(1, sessionsCount + 1)) / 4)`. -/
def getDetailLevel (jm : JsMath) (sessionsCount : ℚ) : ℚ :=
  min 1 (jm.log10 (max 1 (sessionsCount + 1)) / 4)

/-- Real-valued model of `getDetailLevel(sessionsCount)` with the actual
base-10 logarithm: `min(1, log10(max(1, sessionsCount + 1)) / 4)`. -/
noncomputable def getDetailLevelR (sessionsCount : ℚ) : ℝ :=
  min 1 (Real.logb 10 (max 1 ((sessionsCount : ℝ) + 1)) / 4)

/-- `getMaturityConfig(sessionsCount)`: stage plus the per-stage capability
table and detail level. -/
def getMaturityConfig (jm : JsMath) (sessionsCount : ℚ) : MaturityConfig :=
  let stage := getStage sessionsCount
  let detailLevel := getDetailLevel jm sessionsCount
  match stage with
  | .nascent =>
    { stage := stage, sessionsCount := sessionsCount, maxEyes := 1,
      hasNucleus := false, hasCirculation := false, appendageComplexity := 0,
      detailLevel := detailLevel }
  | .developing =>
    { stage := stage, sessionsCount := sessionsCount, maxEyes := 2,
      hasNucleus := true, hasCirculation := false, appendageComplexity := 1,
      detailLevel := detailLevel }
  | .mature =>
    { stage := stage, sessionsCount := sessionsCount, maxEyes := 3,
      hasNucleus := true, hasCirculation := true, appendageComplexity := 2,
      detailLevel := detailLevel }
  | .elder =>
    { stage := stage, sessionsCount := sessionsCount, maxEyes := 3,
      hasNucleus := true, hasCirculation := true, appendageComplexity := 3,
      detailLevel := detailLevel }

/-- C2: for every non-negative integer session count the four bands map to
the documented stages and capability tables, the detail level equals
`clamp(log10(sessionsCount + 1) / 4, 0, 1)`, and in particular 42 sessions
yield the developing configuration `(2, true, false, 1)`. -/
theorem getMaturityConfig_bands (jm : JsMath) (s : ℕ) (hs : 0 ≤ (s : ℚ)) :
    ((s : ℚ) ≤ 10 →
      (getMaturityConfig jm s).stage = .nascent ∧
      (getMaturityConfig jm s).maxEyes = 1 ∧
      (getMaturityConfig jm s).hasNucleus = false ∧
      (getMaturityConfig jm s).hasCirculation = false ∧
      (getMaturityConfig jm s).appendageComplexity = 0) ∧
    (11 ≤ (s : ℚ) → (s : ℚ) ≤ 100 →
      (getMaturityConfig jm s).stage = .developing ∧
      (getMaturityConfig jm s).maxEyes = 2 ∧
      (getMaturityConfig jm s).hasNucleus = true ∧
      (getMaturityConfig jm s).hasCirculation = false ∧
      (getMaturityConfig jm s).appendageComplexity = 1) ∧
    (101 ≤ (s : ℚ) → (s : ℚ) ≤ 500 →
      (getMaturityConfig jm s).stage = .mature ∧
      (getMaturityConfig jm s).maxEyes = 3 ∧
      (getMaturityConfig jm s).hasNucleus = true ∧
      (getMaturityConfig jm s).hasCirculation = true ∧
      (getMaturityConfig jm s).appendageComplexity = 2) ∧
    (501 ≤ (s : ℚ) →
      (getMaturityConfig jm s).stage = .elder ∧
      (getMaturityConfig jm s).maxEyes = 3 ∧
      (getMaturityConfig jm s).hasNucleus = true ∧
      (getMaturityConfig jm s).hasCirculation = true ∧
      (getMaturityConfig jm s).appendageComplexity = 3) ∧
    getDetailLevelR s = max 0 (min 1 (Real.logb 10 ((s : ℝ) + 1) / 4)) ∧
    ((getMaturityConfig jm 42).stage = .developing ∧
      (getMaturityConfig jm 42).maxEyes = 2 ∧
      (getMaturityConfig jm 42).hasNucleus = true ∧
      (getMaturityConfig jm 42).hasCirculation = false ∧
      (getMaturityConfig jm 42).appendageComplexity = 1) := by
  have hstage : ∀ q : ℚ, 10 < q → q ≤ 100 → getStage q = .developing := by
    intro q h1 h2
    unfold getStage
    rw [if_neg (by linarith), if_pos h2]
  refine ⟨?_, ?_, ?_, ?_, ?_, ?_⟩
  · intro h
    have : getStage (s : ℚ) = .nascent := by unfold getStage; rw [if_pos h]
    simp [getMaturityConfig, this]
  · intro h1 h2
    have : getStage (s : ℚ) = .developing := hstage _ (by linarith) h2
    simp [getMaturityConfig, this]
  · intro h1 h2
    have : getStage (s : ℚ) = .mature := by
      unfold getStage
      rw [if_neg (by linarith), if_neg (by linarith), if_pos h2]
    simp [getMaturityConfig, this]
  · intro h
    have : getStage (s : ℚ) = .elder := by
      unfold getStage
      rw [if_neg (by linarith), if_neg (by linarith), if_neg (by linarith)]
    simp [getMaturityConfig, this]
  · unfold getDetailLevelR
    push_cast
    have h1 : (1 : ℝ) ≤ (s : ℝ) + 1 := by
      have : (0 : ℝ) ≤ (s : ℝ) := by positivity
      linarith
    rw [max_eq_right h1]
    have hlog : 0 ≤ Real.logb 10 ((s : ℝ) + 1) := Real.logb_nonneg (by norm_num) h1
    rw [max_eq_right (le_min (by norm_num) (by linarith))]
  · have : getStage (42 : ℚ) = .developing := hstage 42 (by norm_num) (by norm_num)
    simp [getMaturityConfig, this]

/-- Witness for C2 at `sessionsCount = 42`: the hypothesis `0 ≤ 42` holds and
the instantiated theorem yields the developing configuration. -/
theorem getMaturityConfig_bands_witness :
    (0 : ℚ) ≤ (42 : ℕ) ∧
    ((getMaturityConfig jsMath0 42).stage = .developing ∧
      (getMaturityConfig jsMath0 42).maxEyes = 2 ∧
      (getMaturityConfig jsMath0 42).hasNucleus = true ∧
      (getMaturityConfig jsMath0 42).hasCirculation = false ∧
      (getMaturityConfig jsMath0 42).appendageComplexity = 1) := by
  refine ⟨by norm_num, ?_⟩
  have h := getMaturityConfig_bands jsMath0 42 (by norm_num)
  have h42 := h.2.2.2.2.2
  simpa using h42

/-! ### Seeded PRNG (createSeededRandom, shared by body/eye/appendage
generators)

The closure-held 32-bit state is represented explicitly (design note §9:
`RngState` value plus pure `next`).  JS `|0`, `Math.imul`, `^`, `>>>`, `|`
are exact 32-bit operations, modelled on the unsigned representative in
`ℕ` modulo `2^32`. -/

/-- Explicit state of `createSeededRandom`'s closure. -/
abbrev RngState := ℕ

/-- One step of the mulberry32-style generator used by
`createSeededRandom`: returns the advanced state and a rational in `[0,1)`
equal to the produced float `((t ^ (t >>> 14)) >>> 0) / 4294967296`. -/
def mulberryNext (s : RngState) : RngState × ℚ :=
  let s1 := (s + 0x6d2b79f5) % 2 ^ 32
  let t0 := (s1 ^^^ (s1 >>> 15)) * (1 ||| s1) % 2 ^ 32
  let t1 := ((t0 + (t0 ^^^ (t0 >>> 7)) * (61 ||| t0) % 2 ^ 32) % 2 ^ 32) ^^^ t0
  let r := t1 ^^^ (t1 >>> 14)
  (s1, (r : ℚ) / 4294967296)

/-! ### Body generator (src/lib/creature/bodyGenerator.ts) -/

/-- RGB color with components in `[0,1]`. -/
structure RGB where
  r : ℚ
  g : ℚ
  b : ℚ
  deriving Repr, DecidableEq

/-- Color palette consumed by the generators. -/
structure ColorPalette where
  primary : RGB
  secondary : RGB
  accent : RGB
  background : RGB
  deriving Repr, DecidableEq

/-- Linear interpolation `a + (b - a) * t`. -/
def lerp (a b t : ℚ) : ℚ := a + (b - a) * t

/-- Body symmetry/organization pattern. -/
inductive BodyPlan where
  | radial
  | bilateral
  | asymmetric
  deriving Repr, DecidableEq

/-- `getBodyPlan(traits)`: plan from the geometric/organic and
connected/isolated axes. -/
def getBodyPlan (traits : TraitVector) : BodyPlan :=
  if traits.geometricOrganic < 0.3 then
    .radial
  else if traits.geometricOrganic > 0.7 then
    .bilateral
  else
    if traits.connectedIsolated > 0.5 then .asymmetric else .bilateral

/-- `getResolution(plan, maturity)`: plan base scaled by detail level,
rounded, capped at 64. -/
def getResolution (plan : BodyPlan) (maturity : MaturityConfig) : ℤ :=
  let base : ℚ :=
    match plan with
    | .radial => 6
    | .bilateral => 24
    | .asymmetric => 32
  let scaled := round (base * (1 + maturity.detailLevel * 0.5))
  min 64 scaled

/-- Membrane parameters of the body. -/
structure MembraneConfig where
  thickness : ℚ
  opacity : ℚ
  breathAmplitude : ℚ
  breathRate : ℚ
  deriving Repr, DecidableEq

/-- `generateMembrane(traits, maturity)`. -/
def generateMembrane (traits : TraitVector) (maturity : MaturityConfig) :
    MembraneConfig :=
  { thickness := lerp 0.15 0.05 traits.geometricOrganic
    opacity := lerp 0.5 0.85 traits.intensityScale
    breathAmplitude :=
      lerp 0.02 0.08 traits.geometricOrganic * (0.8 + maturity.detailLevel * 0.4)
    breathRate := lerp 0.1 0.27 traits.motionTempo }

/-- Optional nucleus configuration. -/
structure NucleusConfig where
  position : ℚ × ℚ
  size : ℚ
  pulseRate : ℚ
  color : ℚ × ℚ × ℚ
  deriving Repr, DecidableEq

/-- `generateNucleus(traits, maturity, random, palette)`: present only when
`maturity.hasNucleus`; consumes one random for the offset angle. -/
def generateNucleus (jm : JsMath) (traits : TraitVector)
    (maturity : MaturityConfig) (st : RngState) (palette : ColorPalette) :
    RngState × Option NucleusConfig :=
  if maturity.hasNucleus then
    let n := mulberryNext st
    let offsetAmount := traits.geometricOrganic * 0.2
    let angle := n.2 * jm.pi * 2
    let position := (jm.cos angle * offsetAmount, jm.sin angle * offsetAmount)
    let size := lerp 0.15 0.25 maturity.detailLevel
    let pulseRate := lerp 0.3 0.8 traits.intensityScale
    let c := (min 1 (palette.primary.r * 1.3), min 1 (palette.primary.g * 1.3),
      min 1 (palette.primary.b * 1.3))
    (n.1, some ⟨position, size, pulseRate, c⟩)
  else
    (st, none)

/-- Complete body configuration. -/
structure BodyConfig where
  plan : BodyPlan
  radius : ℚ
  aspect : ℚ × ℚ
  irregularity : ℚ
  resolution : ℤ
  membrane : MembraneConfig
  nucleus : Option NucleusConfig
  deriving Repr, DecidableEq

/-- `generateBody(traits, maturity, seed, palette)` with the seeded PRNG
state threaded explicitly (seed offset `+1000`). -/
def generateBody (jm : JsMath) (traits : TraitVector)
    (maturity : MaturityConfig) (seed : ℕ) (palette : ColorPalette) :
    BodyConfig :=
  let st0 : RngState := seed + 1000
  let plan := getBodyPlan traits
  let radius := lerp 0.15 0.28 traits.intensityScale
  let stepAspect : RngState × (ℚ × ℚ) :=
    match plan with
    | .radial =>
      let n1 := mulberryNext st0
      let n2 := mulberryNext n1.1
      (n2.1, (1 + (n1.2 - 0.5) * 0.1, 1 + (n2.2 - 0.5) * 0.1))
    | .bilateral =>
      let n1 := mulberryNext st0
      let n2 := mulberryNext n1.1
      if n1.2 > 0.5 then
        (n2.1, (1.15 + n2.2 * 0.15, 0.9))
      else
        (n2.1, (0.9, 1.15 + n2.2 * 0.15))
    | .asymmetric =>
      let n1 := mulberryNext st0
      let n2 := mulberryNext n1.1
      (n2.1, (0.85 + n1.2 * 0.4, 0.85 + n2.2 * 0.4))
  let irregularity := lerp 0.02 0.2 traits.geometricOrganic
  let resolution := getResolution plan maturity
  let membrane := generateMembrane traits maturity
  let nucleus := (generateNucleus jm traits maturity stepAspect.1 palette).2
  { plan := plan, radius := radius, aspect := stepAspect.2,
    irregularity := irregularity, resolution := resolution,
    membrane := membrane, nucleus := nucleus }

/-- C5: the body plan chosen by `generateBody` is radial for
`geometricOrganic < 0.3`, bilateral for `geometricOrganic > 0.7`, and in the
middle band bilateral iff `connectedIsolated ≤ 0.5` (else asymmetric); in
particular the center vector produced by an empty trait list yields
bilateral. -/
theorem generateBody_plan (jm : JsMath) (traits : TraitVector)
    (maturity : MaturityConfig) (seed seed2 : ℕ) (palette : ColorPalette) :
    (generateBody jm traits maturity seed palette).plan =
      (if traits.geometricOrganic < 0.3 then BodyPlan.radial
       else if traits.geometricOrganic > 0.7 then BodyPlan.bilateral
       else if traits.connectedIsolated ≤ 0.5 then BodyPlan.bilateral
       else BodyPlan.asymmetric) ∧
    (generateBody jm (traitsToVector [] seed2) maturity seed palette).plan =
      BodyPlan.bilateral := by
  have hplan : ∀ t : TraitVector, (generateBody jm t maturity seed palette).plan =
      getBodyPlan t := by
    intro t
    unfold generateBody
    rcases h : getBodyPlan t with _ | _ | _ <;> simp [h]
  constructor
  · rw [hplan]
    unfold getBodyPlan
    rcases lt_or_ge traits.geometricOrganic 0.3 with h1 | h1
    · rw [if_pos h1, if_pos h1]
    · rw [if_neg (not_lt.mpr h1), if_neg (not_lt.mpr h1)]
      rcases lt_or_ge (0.7 : ℚ) traits.geometricOrganic with h2 | h2
      · rw [if_pos h2, if_pos h2]
      · rw [if_neg (not_lt.mpr h2), if_neg (not_lt.mpr h2)]
        rcases le_or_lt traits.connectedIsolated 0.5 with h3 | h3
        · rw [if_neg (not_lt.mpr h3), if_pos h3]
        · rw [if_pos h3, if_neg (not_le.mpr h3)]
  · rw [hplan]
    have hv : traitsToVector [] seed2 = ⟨0.5, 0.5, 0.5, 0.5⟩ := rfl
    rw [hv]
    unfold getBodyPlan
    norm_num

/-- C9 (amended): the membrane breath rate is the linear strictly increasing
function `lerp(0.1, 0.27, motionTempo)` of motion tempo, whose value in
breaths per minute lies in `[6, 16.2]` for `motionTempo ∈ [0,1]`; thickness
is strictly decreasing in `geometricOrganic` and opacity strictly increasing
in `intensityScale`. -/
theorem generateMembrane_monotone (maturity : MaturityConfig)
    (t t1 t2 : TraitVector)
    (hmt0 : 0 ≤ t.motionTempo) (hmt1 : t.motionTempo ≤ 1)
    (hlt : t1.motionTempo < t2.motionTempo)
    (hgo : t1.geometricOrganic < t2.geometricOrganic)
    (his : t1.intensityScale < t2.intensityScale) :
    (generateMembrane t maturity).breathRate = 0.1 + 0.17 * t.motionTempo ∧
    6 ≤ (generateMembrane t maturity).breathRate * 60 ∧
    (generateMembrane t maturity).breathRate * 60 ≤ 16.2 ∧
    (generateMembrane t1 maturity).breathRate <
      (generateMembrane t2 maturity).breathRate ∧
    (generateMembrane t2 maturity).thickness <
      (generateMembrane t1 maturity).thickness ∧
    (generateMembrane t1 maturity).opacity <
      (generateMembrane t2 maturity).opacity := by
  unfold generateMembrane lerp
  simp only
  refine ⟨by ring, by nlinarith, by nlinarith, by nlinarith, by nlinarith, by nlinarith⟩

/-- Witness for C9's amended theorem at the center trait vector and two
comparison vectors. -/
theorem generateMembrane_monotone_witness :
    (0 : ℚ) ≤ (0.5 : ℚ) ∧ (0.5 : ℚ) ≤ 1 ∧ (0.2 : ℚ) < 0.8 ∧
    ((generateMembrane ⟨0.5, 0.5, 0.5, 0.5⟩
        (getMaturityConfig jsMath0 0)).breathRate = 0.1 + 0.17 * 0.5 ∧
      6 ≤ (generateMembrane ⟨0.5, 0.5, 0.5, 0.5⟩
        (getMaturityConfig jsMath0 0)).breathRate * 60 ∧
      (generateMembrane ⟨0.5, 0.5, 0.5, 0.5⟩
        (getMaturityConfig jsMath0 0)).breathRate * 60 ≤ 16.2 ∧
      (generateMembrane ⟨0.2, 0.2, 0.2, 0.2⟩
          (getMaturityConfig jsMath0 0)).breathRate <
        (generateMembrane ⟨0.8, 0.8, 0.8, 0.8⟩
          (getMaturityConfig jsMath0 0)).breathRate ∧
      (generateMembrane ⟨0.8, 0.8, 0.8, 0.8⟩
          (getMaturityConfig jsMath0 0)).thickness <
        (generateMembrane ⟨0.2, 0.2, 0.2, 0.2⟩
          (getMaturityConfig jsMath0 0)).thickness ∧
      (generateMembrane ⟨0.2, 0.2, 0.2, 0.2⟩
          (getMaturityConfig jsMath0 0)).opacity <
        (generateMembrane ⟨0.8, 0.8, 0.8, 0.8⟩
          (getMaturityConfig jsMath0 0)).opacity) := by
  refine ⟨by norm_num, by norm_num, by norm_num, ?_⟩
  exact generateMembrane_monotone (getMaturityConfig jsMath0 0)
    ⟨0.5, 0.5, 0.5, 0.5⟩ ⟨0.2, 0.2, 0.2, 0.2⟩ ⟨0.8, 0.8, 0.8, 0.8⟩
    (by norm_num) (by norm_num) (by norm_num) (by norm_num) (by norm_num)

/-- Counterexample to C9 as stated: at the valid trait vector with
`motionTempo = 1` the membrane breath rate is `0.27` cycles per second,
i.e. `16.2` breaths per minute, which exceeds the claimed upper bound `16`. -/
theorem generateMembrane_bpm_counterexample :
    (generateMembrane ⟨0.5, 0.5, 0.5, 1⟩
        (getMaturityConfig jsMath0 0)).breathRate * 60 > 16 := by
  unfold generateMembrane lerp
  norm_num

/-! ### Eye generator (src/lib/creature/eyeGenerator.ts) -/

/-- Pupil shape variations. -/
inductive PupilShape where
  | round
  | vertical
  | horizontal
  | star
  deriving Repr, DecidableEq

/-- Iris pattern variations. -/
inductive IrisPattern where
  | rings
  | radial
  | spiral
  | organic
  deriving Repr, DecidableEq

/-- Gaze behavior style. -/
inductive GazeStyle where
  | focused
  | wandering
  | tracking
  | contemplative
  deriving Repr, DecidableEq

/-- Iris configuration of a single eye. -/
structure IrisConfig where
  color : ℚ × ℚ × ℚ
  ringCount : ℤ
  fiberDensity : ℚ
  pattern : IrisPattern
  deriving Repr, DecidableEq

/-- Pupil configuration of a single eye. -/
structure PupilConfig where
  shape : PupilShape
  baseSize : ℚ
  dilationRange : ℚ × ℚ
  glowing : Bool
  glowColor : Option (ℚ × ℚ × ℚ)
  deriving Repr, DecidableEq

/-- Behavioral parameters of a single eye. -/
structure EyeBehavior where
  blinkRate : ℚ
  blinkDuration : ℚ
  gazeSpeed : ℚ
  gazeRange : ℚ
  gazeStyle : GazeStyle
  deriving Repr, DecidableEq

/-- Complete configuration of a single eye. -/
structure EyeConfig where
  position : ℚ × ℚ
  size : ℚ
  iris : IrisConfig
  pupil : PupilConfig
  behavior : EyeBehavior
  deriving Repr, DecidableEq

/-- `getEyeCount(traits, maturity)`: intensity bands `<0.3 → 1`,
`<0.6 → min(maxEyes, 2)`, else `maxEyes`. -/
def getEyeCount (traits : TraitVector) (maturity : MaturityConfig) : ℕ :=
  if traits.intensityScale < 0.3 then 1
  else if traits.intensityScale < 0.6 then min maturity.maxEyes 2
  else maturity.maxEyes

/-- `getEyeSize(intensityScale)`: three-segment linear ramp. -/
def getEyeSize (intensityScale : ℚ) : ℚ :=
  if intensityScale < 0.3 then lerp 0.08 0.12 (intensityScale / 0.3)
  else if intensityScale < 0.6 then lerp 0.12 0.16 ((intensityScale - 0.3) / 0.3)
  else lerp 0.16 0.22 ((intensityScale - 0.6) / 0.4)

/-- `getPupilShape(geometricOrganic)`. -/
def getPupilShape (geometricOrganic : ℚ) : PupilShape :=
  if geometricOrganic < 0.25 then .star
  else if geometricOrganic < 0.5 then .vertical
  else .round

/-- `getIrisPattern(geometricOrganic)`. -/
def getIrisPattern (geometricOrganic : ℚ) : IrisPattern :=
  if geometricOrganic < 0.25 then .rings
  else if geometricOrganic < 0.5 then .radial
  else if geometricOrganic < 0.75 then .spiral
  else .organic

/-- `getGazeStyle(connectedIsolated)`. -/
def getGazeStyle (connectedIsolated : ℚ) : GazeStyle :=
  if connectedIsolated < 0.25 then .tracking
  else if connectedIsolated < 0.5 then .focused
  else if connectedIsolated < 0.75 then .contemplative
  else .wandering

/-- `getEyePositions(count, random)`: hand-laid-out positions per count; the
PRNG state is threaded explicitly, the triangle branch uses `Math.cos/sin`. -/
def getEyePositions (jm : JsMath) (count : ℕ) (st : RngState) :
    RngState × List (ℚ × ℚ) :=
  if count = 1 then
    let n1 := mulberryNext st
    let n2 := mulberryNext n1.1
    (n2.1, [((n1.2 - 0.5) * 0.05, 0.05 + n2.2 * 0.05)])
  else if count = 2 then
    let n1 := mulberryNext st
    let n2 := mulberryNext n1.1
    let spread := 0.15 + n1.2 * 0.08
    let yOffset := 0.05 + n2.2 * 0.05
    (n2.1, [(-spread, yOffset), (spread, yOffset)])
  else if count = 3 then
    let n1 := mulberryNext st
    if n1.2 > 0.5 then
      let n2 := mulberryNext n1.1
      let n3 := mulberryNext n2.1
      let n4 := mulberryNext n3.1
      let spread := 0.14 + n2.2 * 0.06
      let yOffset := 0.02 + n3.2 * 0.04
      (n4.1, [(-spread, yOffset), (spread, yOffset), (0, 0.18 + n4.2 * 0.04)])
    else
      let n2 := mulberryNext n1.1
      let radius := 0.12 + n2.2 * 0.04
      let angleAt : ℕ → ℚ := fun i => ((i : ℚ) / 3) * jm.pi * 2 - jm.pi / 2
      (n2.1, (List.range 3).map fun i =>
        (jm.cos (angleAt i) * radius, jm.sin (angleAt i) * radius + 0.05))
  else
    (st, [])

/-- `generateSingleEye(position, index, traits, maturity, random,
irisBaseColor)`: one eye; consumes four randoms plus one more for the glow
coin flip when the stage is elder. -/
def generateSingleEye (position : ℚ × ℚ) (_index : ℕ) (traits : TraitVector)
    (maturity : MaturityConfig) (st : RngState) (irisBaseColor : ℚ × ℚ × ℚ) :
    RngState × EyeConfig :=
  let n1 := mulberryNext st
  let baseSize := getEyeSize traits.intensityScale
  let size := baseSize * (0.9 + n1.2 * 0.2)
  let n2 := mulberryNext n1.1
  let n3 := mulberryNext n2.1
  let n4 := mulberryNext n3.1
  let irisColor : ℚ × ℚ × ℚ :=
    (max 0 (min 1 (irisBaseColor.1 + (n2.2 - 0.5) * 0.1)),
     max 0 (min 1 (irisBaseColor.2.1 + (n3.2 - 0.5) * 0.1)),
     max 0 (min 1 (irisBaseColor.2.2 + (n4.2 - 0.5) * 0.1)))
  let ringCount := round (lerp 2 5 maturity.detailLevel)
  let fiberDensity := lerp 8 24 maturity.detailLevel
  let pupilShape := getPupilShape traits.geometricOrganic
  let basePupilSize := lerp 0.2 0.35 traits.intensityScale
  let dilationMin := basePupilSize * 0.7
  let dilationMax := basePupilSize * 1.3
  let stepGlow : RngState × Bool :=
    if maturity.stage = .elder then
      let n5 := mulberryNext n4.1
      (n5.1, decide (n5.2 > 0.5))
    else
      (n4.1, false)
  let glowing := stepGlow.2
  let glowColor : Option (ℚ × ℚ × ℚ) :=
    if glowing then
      some (min 1 (irisColor.1 * 1.5), min 1 (irisColor.2.1 * 1.5),
        min 1 (irisColor.2.2 * 1.5))
    else
      none
  let blinkRate := lerp 3 20 traits.motionTempo
  let blinkDuration : ℚ := 0.15
  let gazeStyle := getGazeStyle traits.connectedIsolated
  let gazeSpeed := lerp 0.2 0.8 traits.motionTempo
  let gazeRange := lerp 0.3 0.6 (1 - traits.connectedIsolated)
  let iris : IrisConfig :=
    { color := irisColor, ringCount := ringCount, fiberDensity := fiberDensity,
      pattern := getIrisPattern traits.geometricOrganic }
  let pupil : PupilConfig :=
    { shape := pupilShape, baseSize := basePupilSize,
      dilationRange := (dilationMin, dilationMax), glowing := glowing,
      glowColor := glowColor }
  let behavior : EyeBehavior :=
    { blinkRate := blinkRate, blinkDuration := blinkDuration,
      gazeSpeed := gazeSpeed, gazeRange := gazeRange, gazeStyle := gazeStyle }
  (stepGlow.1,
    { position := position, size := size, iris := iris, pupil := pupil,
      behavior := behavior })

/-- `generateEyes(traits, maturity, seed, palette)`: seed offset `+2000`,
then one `generateSingleEye` per eye in a loop. -/
def generateEyes (jm : JsMath) (traits : TraitVector)
    (maturity : MaturityConfig) (seed : ℕ) (palette : ColorPalette) :
    List EyeConfig :=
  let st0 : RngState := seed + 2000
  let eyeCount := getEyeCount traits maturity
  let stepPos := getEyePositions jm eyeCount st0
  let irisBaseColor : ℚ × ℚ × ℚ :=
    (palette.secondary.r, palette.secondary.g, palette.secondary.b)
  ((List.range eyeCount).foldl
    (fun acc i =>
      let r := generateSingleEye (stepPos.2.getD i (0, 0)) i traits maturity
        acc.1 irisBaseColor
      (r.1, acc.2 ++ [r.2]))
    (stepPos.1, ([] : List EyeConfig))).2

lemma eyesLoop_length (g : RngState → ℕ → RngState × EyeConfig)
    (l : List ℕ) (st : RngState) (a : List EyeConfig) :
    ((l.foldl (fun acc i => let r := g acc.1 i; (r.1, acc.2 ++ [r.2]))
      (st, a)).2).length = a.length + l.length := by
  induction l generalizing st a with
  | nil => simp
  | cons hd tl ih =>
    simp only [List.foldl_cons]
    rw [ih]
    simp
    omega

lemma generateEyes_length (jm : JsMath) (traits : TraitVector)
    (maturity : MaturityConfig) (seed : ℕ) (palette : ColorPalette) :
    (generateEyes jm traits maturity seed palette).length =
      getEyeCount traits maturity := by
  unfold generateEyes
  rw [eyesLoop_length (fun st i =>
    generateSingleEye ((getEyePositions jm (getEyeCount traits maturity)
      (seed + 2000)).2.getD i (0, 0)) i traits maturity st
      (palette.secondary.r, palette.secondary.g, palette.secondary.b))]
  simp

/-! ### Appendage generator (src/lib/creature/appendageGenerator.ts) -/

/-- Types of appendages the creature can have. -/
inductive AppendageType where
  | tendril
  | limb
  | cilia
  | spoke
  | tail
  | antenna
  deriving Repr, DecidableEq

/-- Wave animation parameters of an appendage. -/
structure WaveConfig where
  amplitude : ℚ
  frequency : ℚ
  speed : ℚ
  phase : ℚ
  deriving Repr, DecidableEq

/-- Complete configuration of a single appendage. -/
structure AppendageConfig where
  type : AppendageType
  attachAngle : ℚ
  length : ℚ
  thickness : ℚ
  segments : ℤ
  taper : ℚ
  wave : WaveConfig
  deriving Repr, DecidableEq

/-- `getAppendageTypes(traits)`: decision tree over the two shape axes. -/
def getAppendageTypes (traits : TraitVector) : List AppendageType :=
  if traits.geometricOrganic < 0.3 then
    [.spoke]
  else if traits.geometricOrganic < 0.6 then
    if traits.connectedIsolated > 0.5 then [.tail] else [.limb]
  else
    if traits.connectedIsolated > 0.5 then [.tendril, .tail] else [.tendril]

/-- `getAppendageCount(type, traits, maturity)`: per-type count formula keyed
to `appendageComplexity` (0 disables appendages). -/
def getAppendageCount (type : AppendageType) (_traits : TraitVector)
    (maturity : MaturityConfig) : ℕ :=
  if maturity.appendageComplexity = 0 then 0
  else
    let complexity := maturity.appendageComplexity
    match type with
    | .spoke => 4 + complexity * 2
    | .tendril => 2 + complexity
    | .limb => 2 + complexity / 2
    | .tail => 1
    | .cilia => 8 + complexity * 4
    | .antenna => min 2 complexity

/-- Base parameter table returned by `getTypeParameters(type)`. -/
structure TypeParameters where
  lengthRange : ℚ × ℚ
  thicknessRange : ℚ × ℚ
  segmentsRange : ℚ × ℚ
  taperRange : ℚ × ℚ
  deriving Repr, DecidableEq

/-- `getTypeParameters(type)`. -/
def getTypeParameters (type : AppendageType) : TypeParameters :=
  match type with
  | .spoke =>
    ⟨(0.3, 0.5), (0.02, 0.04), (2, 4), (0.3, 0.5)⟩
  | .tendril =>
    ⟨(0.5, 0.9), (0.015, 0.03), (6, 12), (0.7, 0.9)⟩
  | .limb =>
    ⟨(0.3, 0.5), (0.025, 0.04), (3, 5), (0.3, 0.5)⟩
  | .tail =>
    ⟨(0.6, 1.0), (0.03, 0.05), (8, 14), (0.8, 0.95)⟩
  | .cilia =>
    ⟨(0.1, 0.2), (0.005, 0.01), (2, 3), (0.5, 0.7)⟩
  | .antenna =>
    ⟨(0.4, 0.6), (0.01, 0.02), (4, 6), (0.6, 0.8)⟩

/-- `generateWaveParams(type, traits, random)`: base amplitude/frequency per
type scaled by trait-derived multipliers; one random for the phase. -/
def generateWaveParams (jm : JsMath) (type : AppendageType)
    (traits : TraitVector) (st : RngState) : RngState × WaveConfig :=
  let baseAmplitude : ℚ :=
    match type with
    | .spoke => 0.05
    | .tendril => 0.2
    | .limb => 0.1
    | .tail => 0.25
    | .cilia => 0.15
    | .antenna => 0.1
  let amplitude := baseAmplitude * lerp 0.5 1.5 traits.geometricOrganic
  let baseFrequency : ℚ :=
    match type with
    | .spoke => 0.5
    | .tendril => 1.0
    | .limb => 0.8
    | .tail => 0.6
    | .cilia => 2.0
    | .antenna => 1.2
  let frequency := baseFrequency * lerp 0.7 1.5 traits.motionTempo
  let speed := lerp 0.3 1.2 traits.motionTempo
  let n := mulberryNext st
  let phase := n.2 * jm.pi * 2
  (n.1, ⟨amplitude, frequency, speed, phase⟩)

/-- `getAttachmentAngles(type, count, random)`: per-type angle layout with
explicit PRNG threading. -/
def getAttachmentAngles (jm : JsMath) (type : AppendageType) (count : ℕ)
    (st : RngState) : RngState × List ℚ :=
  match type with
  | .spoke | .cilia =>
    (List.range count).foldl
      (fun acc i =>
        let baseAngle := ((i : ℚ) / (count : ℚ)) * jm.pi * 2
        let n := mulberryNext acc.1
        (n.1, acc.2 ++ [baseAngle + (n.2 - 0.5) * 0.2]))
      (st, [])
  | .tendril | .limb =>
    (List.range count).foldl
      (fun acc i =>
        let side : ℚ := if i % 2 = 0 then -1 else 1
        let baseAngle := jm.pi / 2 + side * (0.3 + ((i / 2 : ℕ) : ℚ) * 0.4)
        let n := mulberryNext acc.1
        (n.1, acc.2 ++ [baseAngle + (n.2 - 0.5) * 0.2]))
      (st, [])
  | .tail =>
    let n := mulberryNext st
    (n.1, [jm.pi * 1.5 + (n.2 - 0.5) * 0.3])
  | .antenna =>
    (List.range count).foldl
      (fun acc i =>
        let n := mulberryNext acc.1
        let spread := 0.3 + n.2 * 0.2
        let side : ℚ := if i % 2 = 0 then -1 else 1
        (n.1, acc.2 ++ [jm.pi / 2 + side * spread]))
      (st, [])

/-- `generateSingleAppendage(type, attachAngle, traits, maturity, random)`:
four randoms for the scalar parameters plus one inside the wave phase. -/
def generateSingleAppendage (jm : JsMath) (type : AppendageType)
    (attachAngle : ℚ) (traits : TraitVector) (maturity : MaturityConfig)
    (st : RngState) : RngState × AppendageConfig :=
  let params := getTypeParameters type
  let detailScale := 0.7 + maturity.detailLevel * 0.6
  let n1 := mulberryNext st
  let length := lerp params.lengthRange.1 params.lengthRange.2 n1.2 * detailScale
  let n2 := mulberryNext n1.1
  let thickness := lerp params.thicknessRange.1 params.thicknessRange.2 n2.2
  let n3 := mulberryNext n2.1
  let segments := round (lerp params.segmentsRange.1 params.segmentsRange.2 n3.2)
  let n4 := mulberryNext n3.1
  let taper := lerp params.taperRange.1 params.taperRange.2 n4.2
  let stepWave := generateWaveParams jm type traits n4.1
  (stepWave.1,
    { type := type, attachAngle := attachAngle, length := length,
      thickness := thickness, segments := segments, taper := taper,
      wave := stepWave.2 })

/-- `generateAppendages(traits, maturity, seed)`: empty when
`appendageComplexity` is 0; otherwise seed offset `+3000`, then per type the
angle layout followed by one `generateSingleAppendage` per appendage. -/
def generateAppendages (jm : JsMath) (traits : TraitVector)
    (maturity : MaturityConfig) (seed : ℕ) : List AppendageConfig :=
  if maturity.appendageComplexity = 0 then
    []
  else
    let st0 : RngState := seed + 3000
    let types := getAppendageTypes traits
    (types.foldl
      (fun acc type =>
        let count := getAppendageCount type traits maturity
        let stepAngles := getAttachmentAngles jm type count acc.1
        (List.range count).foldl
          (fun acc2 i =>
            let r := generateSingleAppendage jm type (stepAngles.2.getD i 0)
              traits maturity acc2.1
            (r.1, acc2.2 ++ [r.2]))
          (stepAngles.1, acc.2))
      (st0, ([] : List AppendageConfig))).2

/-! ### Behavior generator (src/lib/creature/behaviorGenerator.ts) -/

/-- Breathing pattern variants. -/
inductive BreathPattern where
  | regular
  | sighing
  | irregular
  deriving Repr, DecidableEq

/-- Breathing configuration. -/
structure BreathingConfig where
  rate : ℚ
  depth : ℚ
  pattern : BreathPattern
  deriving Repr, DecidableEq

/-- Idle movement configuration. -/
structure IdleConfig where
  drift : ℚ
  wobble : ℚ
  pulse : ℚ
  deriving Repr, DecidableEq

/-- Gaze behavior configuration. -/
structure GazeConfig where
  centerBias : ℚ
  syncFactor : ℚ
  curiosity : ℚ
  deriving Repr, DecidableEq

/-- Complete behavior configuration. -/
structure BehaviorConfig where
  breathing : BreathingConfig
  idle : IdleConfig
  gaze : GazeConfig
  deriving Repr, DecidableEq

/-- `generateBreathing(traits)`. -/
def generateBreathing (traits : TraitVector) : BreathingConfig :=
  { rate := lerp 6 20 traits.motionTempo
    depth := lerp 0.3 0.8 traits.geometricOrganic
    pattern :=
      if traits.geometricOrganic < 0.33 then .regular
      else if traits.geometricOrganic < 0.66 then .sighing
      else .irregular }

/-- `generateIdle(traits)`. -/
def generateIdle (traits : TraitVector) : IdleConfig :=
  { drift := lerp 0.05 0.3 traits.geometricOrganic
    wobble := lerp 0.1 0.5 traits.motionTempo
    pulse := lerp 0.2 0.6 traits.connectedIsolated }

/-- `generateGaze(traits)`. -/
def generateGaze (traits : TraitVector) : GazeConfig :=
  { centerBias := lerp 0.7 0.2 traits.connectedIsolated
    syncFactor := lerp 0.9 0.4 traits.connectedIsolated
    curiosity := lerp 0.3 0.8 traits.motionTempo }

/-- `generateBehavior(traits)`. -/
def generateBehavior (traits : TraitVector) : BehaviorConfig :=
  { breathing := generateBreathing traits
    idle := generateIdle traits
    gaze := generateGaze traits }

/-! ### Main creature generator (src/lib/creature/generator.ts) -/

/-- Creature color scheme. -/
structure CreatureColors where
  body : ℚ × ℚ × ℚ
  membrane : ℚ × ℚ × ℚ
  accent : ℚ × ℚ × ℚ
  nucleus : ℚ × ℚ × ℚ
  deriving Repr, DecidableEq

/-- Visual parameters consumed by `generateCreature`.  The defining module
(`lib/generation/params.ts`) is not part of the provided sources; the field
list is reconstructed from its uses in `generator.ts`
(`getDefaultCreature`). -/
structure VisualParams where
  seed : ℕ
  complexity : ℚ
  layerCount : ℚ
  palette : ColorPalette
  saturation : ℚ
  colorVariety : ℚ
  organicness : ℚ
  animSpeed : ℚ
  pulseIntensity : ℚ
  particleCount : ℕ
  trailLength : ℚ
  traitVector : TraitVector
  formCount : ℚ
  formScale : ℚ
  sessionsCount : ℚ

/-- The aggregate creature exposed to the render layer. -/
structure Creature where
  seed : ℕ
  maturity : MaturityConfig
  body : BodyConfig
  eyes : List EyeConfig
  appendages : List AppendageConfig
  behavior : BehaviorConfig
  colors : CreatureColors

/-- `generateColors(palette)`. -/
def generateColors (palette : ColorPalette) : CreatureColors :=
  { body := (palette.primary.r, palette.primary.g, palette.primary.b)
    membrane :=
      (palette.primary.r * 0.8 + palette.secondary.r * 0.2,
       palette.primary.g * 0.8 + palette.secondary.g * 0.2,
       palette.primary.b * 0.8 + palette.secondary.b * 0.2)
    accent := (palette.accent.r, palette.accent.g, palette.accent.b)
    nucleus :=
      (min 1 (palette.accent.r * 1.2), min 1 (palette.accent.g * 1.2),
       min 1 (palette.accent.b * 1.2)) }

/-- `generateCreature(params, sessionsCount)`: composition of all
sub-generators. -/
def generateCreature (jm : JsMath) (params : VisualParams)
    (sessionsCount : ℚ) : Creature :=
  let maturity := getMaturityConfig jm sessionsCount
  let body := generateBody jm params.traitVector maturity params.seed
    params.palette
  let eyes := generateEyes jm params.traitVector maturity params.seed
    params.palette
  let appendages := generateAppendages jm params.traitVector maturity
    params.seed
  let behavior := generateBehavior params.traitVector
  let colors := generateColors params.palette
  { seed := params.seed, maturity := maturity, body := body, eyes := eyes,
    appendages := appendages, behavior := behavior, colors := colors }

/-- C1: `generateCreature` is deterministic — two calls with identical
arguments yield identical output in every component (the embedding threads
all PRNG state explicitly from the seed, so the result is a pure function of
its arguments). -/
theorem generateCreature_deterministic (jm : JsMath) (params : VisualParams)
    (sessionsCount : ℚ) :
    generateCreature jm params sessionsCount =
      generateCreature jm params sessionsCount ∧
    (generateCreature jm params sessionsCount).maturity =
      (generateCreature jm params sessionsCount).maturity ∧
    (generateCreature jm params sessionsCount).body =
      (generateCreature jm params sessionsCount).body ∧
    (generateCreature jm params sessionsCount).eyes =
      (generateCreature jm params sessionsCount).eyes ∧
    (generateCreature jm params sessionsCount).appendages =
      (generateCreature jm params sessionsCount).appendages ∧
    (generateCreature jm params sessionsCount).behavior =
      (generateCreature jm params sessionsCount).behavior ∧
    (generateCreature jm params sessionsCount).colors =
      (generateCreature jm params sessionsCount).colors :=
  ⟨rfl, rfl, rfl, rfl, rfl, rfl, rfl⟩

/-- C6: the number of generated eyes follows the intensity bands
(`<0.3 → 1`, `<0.6 → min(maxEyes,2)`, else `maxEyes`), hence never exceeds
`maturity.maxEyes` (whose TypeScript type is `1 | 2 | 3`, modelled by the
hypothesis `1 ≤ maxEyes`); and `generateAppendages` returns the empty array
whenever `appendageComplexity = 0`. -/
theorem generateEyes_count_bound (jm : JsMath) (traits : TraitVector)
    (maturity : MaturityConfig) (seed : ℕ) (palette : ColorPalette)
    (hmx : 1 ≤ maturity.maxEyes) :
    (traits.intensityScale < 0.3 →
      (generateEyes jm traits maturity seed palette).length = 1) ∧
    (0.3 ≤ traits.intensityScale → traits.intensityScale < 0.6 →
      (generateEyes jm traits maturity seed palette).length =
        min maturity.maxEyes 2) ∧
    (0.6 ≤ traits.intensityScale →
      (generateEyes jm traits maturity seed palette).length =
        maturity.maxEyes) ∧
    (generateEyes jm traits maturity seed palette).length ≤
      maturity.maxEyes ∧
    (maturity.appendageComplexity = 0 →
      generateAppendages jm traits maturity seed = []) := by
  simp only [generateEyes_length]
  unfold getEyeCount
  refine ⟨?_, ?_, ?_, ?_, ?_⟩
  · intro h
    rw [if_pos h]
  · intro h1 h2
    rw [if_neg (not_lt.mpr h1), if_pos h2]
  · intro h
    rw [if_neg (not_lt.mpr (by linarith)), if_neg (not_lt.mpr h)]
  · rcases lt_or_ge traits.intensityScale 0.3 with h1 | h1
    · rw [if_pos h1]; omega
    · rw [if_neg (not_lt.mpr h1)]
      rcases lt_or_ge traits.intensityScale 0.6 with h2 | h2
      · rw [if_pos h2]; omega
      · rw [if_neg (not_lt.mpr h2)]
  · intro h
    unfold generateAppendages
    rw [if_pos h]

/-- Witness for C6 at the center trait vector and the developing maturity of
42 sessions. -/
theorem generateEyes_count_bound_witness :
    1 ≤ (getMaturityConfig jsMath0 42).maxEyes ∧
    ((generateEyes jsMath0 ⟨0.5, 0.5, 0.5, 0.5⟩ (getMaturityConfig jsMath0 42)
        7 ⟨⟨0, 0.9, 0.8⟩, ⟨1, 0.3, 0.3⟩, ⟨0.66, 0.33, 0.97⟩,
          ⟨0.02, 0.03, 0.06⟩⟩).length ≤
      (getMaturityConfig jsMath0 42).maxEyes) := by
  have hm : (getMaturityConfig jsMath0 42).maxEyes = 2 :=
    getMaturityConfig_bands_witness.2.2.1
  refine ⟨by omega, ?_⟩
  exact (generateEyes_count_bound jsMath0 ⟨0.5, 0.5, 0.5, 0.5⟩
    (getMaturityConfig jsMath0 42) 7
    ⟨⟨0, 0.9, 0.8⟩, ⟨1, 0.3, 0.3⟩, ⟨0.66, 0.33, 0.97⟩, ⟨0.02, 0.03, 0.06⟩⟩
    (by omega)).2.2.2.1

/-! ### Particle physics engine (src/hooks/useParticlePhysics.ts, the
respawn-pool variant)

Typed arrays are modelled as `List ℚ` (flat, with the source's index
arithmetic) except the respawn pool, which the source stores as interleaved
`(x, y)` floats and is modelled as a `List (ℚ × ℚ)` of those pairs.
`Float32Array.prototype.copyWithin` is modelled with memmove semantics
(reads from a snapshot of the list).  The flow-field sampler
`getFlowVelocity` is an external noise primitive (spec §1) and is a function
parameter of the engine; the `seededRandom` stream used at buffer-creation
time is likewise abstracted as an index-addressed stream `rnd : ℕ → ℚ`
valued in `[0,1]` (the source formula `(s & 0x7fffffff) / 0x7fffffff`
always lies in that interval), consumed in the source's call order. -/

/-- Pool size per particle (module constant `RESPAWN_POOL_SIZE`). -/
def RESPAWN_POOL_SIZE : ℕ := 16

/-- Fixed-length numeric buffers of the particle system. -/
structure ParticleBuffers where
  positions : List ℚ
  trailPositions : List ℚ
  sizes : List ℚ
  ages : List ℚ
  colors : List ℚ
  trailIndices : List ℚ
  respawnData : List (ℚ × ℚ)
  deriving Repr, DecidableEq

/-- Per-view mutable state of the engine: buffers plus the head-position
cache and the per-particle respawn counters. -/
structure PhysicsState where
  buffers : ParticleBuffers
  headPositions : List ℚ
  respawnCounters : List ℕ
  deriving Repr, DecidableEq

/-- Parameters of the engine: the destructured `VisualParams` fields plus
the abstract flow-velocity sampler
`getFlowVelocity(uvX, uvY, time, seed, complexity, organicness)`. -/
structure PhysicsEnv where
  particleCount : ℕ
  trailSegments : ℕ
  seed : ℕ
  complexity : ℚ
  organicness : ℚ
  animSpeed : ℚ
  vel : ℚ → ℚ → ℚ → ℕ → ℚ → ℚ → ℚ × ℚ

/-- One respawn-pool entry: edge choice `floor(e * 4)` then a coordinate on
that edge, with `margin = 0.1` (cases 0/1/2 of the `switch`, with `default`
covering the rest). -/
def mkRespawnEntry (e c : ℚ) : ℚ × ℚ :=
  let margin : ℚ := 0.1
  let edge := ⌊e * 4⌋
  if edge = 0 then ((c - 0.5) * 2, -1 - margin * 0.5)
  else if edge = 1 then ((c - 0.5) * 2, 1 + margin * 0.5)
  else if edge = 2 then (-1 - margin * 0.5, (c - 0.5) * 2)
  else (1 + margin * 0.5, (c - 0.5) * 2)

/-- Buffer creation (the `useMemo` body): respawn pool first (two stream
values per entry), then per particle seven stream values for start
position, base size, staggered age and color, written into all trail
slots. -/
def createParticleBuffers (rnd : ℕ → ℚ) (particleCount trailSegments : ℕ) :
    ParticleBuffers :=
  let totalVertices := particleCount * trailSegments
  let respawnData := (List.range (particleCount * RESPAWN_POOL_SIZE)).map
    (fun k => mkRespawnEntry (rnd (2 * k)) (rnd (2 * k + 1)))
  let pBase : ℕ → ℕ := fun p => 2 * (particleCount * RESPAWN_POOL_SIZE) + 7 * p
  let startX : ℕ → ℚ := fun p => (rnd (pBase p) - 0.5) * 2
  let startY : ℕ → ℚ := fun p => (rnd (pBase p + 1) - 0.5) * 2
  let baseSize : ℕ → ℚ := fun p => 0.5 + rnd (pBase p + 2) * 0.5
  let baseAge : ℕ → ℚ := fun p => rnd (pBase p + 3)
  let colorAt : ℕ → ℕ → ℚ := fun p comp => 0.8 + rnd (pBase p + 4 + comp) * 0.2
  let trailFactor : ℕ → ℚ := fun t => (t : ℚ) / ((trailSegments : ℚ) - 1)
  let posAt : ℕ → ℚ := fun j =>
    let p := j / 3 / trailSegments
    if j % 3 = 0 then startX p else if j % 3 = 1 then startY p else 0.1
  { positions := (List.range (totalVertices * 3)).map posAt
    trailPositions := (List.range (totalVertices * 3)).map posAt
    sizes := (List.range totalVertices).map
      (fun idx => baseSize (idx / trailSegments) *
        (1 - trailFactor (idx % trailSegments) * 0.5))
    ages := (List.range totalVertices).map
      (fun idx => baseAge (idx / trailSegments))
    colors := (List.range (totalVertices * 3)).map
      (fun j => colorAt (j / 3 / trailSegments) (j % 3))
    trailIndices := (List.range totalVertices).map
      (fun idx => trailFactor (idx % trailSegments))
    respawnData := respawnData }

/-- Initial per-view state: head positions copied from the head slots of the
position buffer, respawn counters zeroed (`Uint8Array`). -/
def initialState (rnd : ℕ → ℚ) (particleCount trailSegments : ℕ) :
    PhysicsState :=
  let b := createParticleBuffers rnd particleCount trailSegments
  { buffers := b
    headPositions := (List.range (particleCount * 3)).map
      (fun j => b.positions.getD ((j / 3 * trailSegments) * 3 + j % 3) 0)
    respawnCounters := List.replicate particleCount 0 }

/-- Out-of-bounds test of the update loop, with `margin = 0.1`. -/
def outOfBounds (x y : ℚ) : Prop :=
  x < -1 - 0.1 ∨ x > 1 + 0.1 ∨ y < -1 - 0.1 ∨ y > 1 + 0.1

instance (x y : ℚ) : Decidable (outOfBounds x y) := by
  unfold outOfBounds; infer_instance

/-- Memmove-style `copyWithin(target, start, fin)`: element `target + i`
receives the value the list held at `start + i` before the call. -/
def copyWithin (l : List ℚ) (target start fin : ℕ) : List ℚ :=
  (List.range (fin - start)).foldl
    (fun acc i => acc.set (target + i) (l.getD (start + i) 0)) l

/-- Respawn branch trail reset: write the respawn `x`/`y` into every trail
slot of the particle (the `z` components are untouched). -/
def resetTrailXY (l : List ℚ) (headIdx ts : ℕ) (x y : ℚ) : List ℚ :=
  (List.range ts).foldl
    (fun acc t => (acc.set ((headIdx + t) * 3) x).set ((headIdx + t) * 3 + 1) y) l

/-- Head position integrated over the frame: current head advected by the
sampled flow velocity (`dt` capped at `0.05`, `speed = animSpeed * 0.5`). -/
def integratedPos (env : PhysicsEnv) (time delta : ℚ) (st : PhysicsState)
    (p : ℕ) : ℚ × ℚ :=
  let dt := min delta 0.05
  let speed := env.animSpeed * 0.5
  let x0 := st.headPositions.getD (p * 3) 0
  let y0 := st.headPositions.getD (p * 3 + 1) 0
  let v := env.vel (x0 * 0.5 + 0.5) (y0 * 0.5 + 0.5) (time * env.animSpeed)
    env.seed env.complexity env.organicness
  (x0 + v.1 * dt * speed, y0 + v.2 * dt * speed)

/-- Body of the per-particle update: integrate, respawn from the pool on
boundary crossing (cycling the per-particle counter modulo the pool size and
zeroing the head age), cache the head, shift the trail ring buffer with a
block copy, rewrite the head slot, and advance the head age. -/
def updateParticle (env : PhysicsEnv) (time delta : ℚ) (st : PhysicsState)
    (p : ℕ) : PhysicsState :=
  let dt := min delta 0.05
  let headIdx := p * env.trailSegments
  let xy := integratedPos env time delta st p
  let stepB : ℚ × ℚ × ParticleBuffers × List ℕ :=
    if outOfBounds xy.1 xy.2 then
      let respawnIdx := st.respawnCounters.getD p 0
      let entry := st.buffers.respawnData.getD
        (p * RESPAWN_POOL_SIZE + respawnIdx) (0, 0)
      let counters := st.respawnCounters.set p
        ((respawnIdx + 1) % RESPAWN_POOL_SIZE)
      let positions := resetTrailXY st.buffers.positions headIdx
        env.trailSegments entry.1 entry.2
      let ages := st.buffers.ages.set headIdx 0
      (entry.1, entry.2,
        { st.buffers with positions := positions, ages := ages }, counters)
    else
      (xy.1, xy.2, st.buffers, st.respawnCounters)
  let x := stepB.1
  let y := stepB.2.1
  let bufs := stepB.2.2.1
  let counters := stepB.2.2.2
  let headPositions := (st.headPositions.set (p * 3) x).set (p * 3 + 1) y
  let trailStart := headIdx * 3
  let trailLen := (env.trailSegments - 1) * 3
  let positions2 := copyWithin bufs.positions (trailStart + 3) trailStart
    (trailStart + trailLen)
  let ages2 := copyWithin bufs.ages (headIdx + 1) headIdx
    (headIdx + (env.trailSegments - 1))
  let positions3 := ((positions2.set trailStart x).set (trailStart + 1) y).set
    (trailStart + 2) 0.1
  let ages3 := ages2.set headIdx (min (ages2.getD headIdx 0 + dt * 0.5) 1)
  { buffers := { bufs with positions := positions3, ages := ages3 }
    headPositions := headPositions
    respawnCounters := counters }

/-- `update(time, delta)`: the per-frame entry point, one `updateParticle`
per particle index in order. -/
def update (env : PhysicsEnv) (time delta : ℚ) (st : PhysicsState) :
    PhysicsState :=
  (List.range env.particleCount).foldl (updateParticle env time delta) st

/-- A finite sequence of `update(time, delta)` calls. -/
def runUpdates (env : PhysicsEnv) (calls : List (ℚ × ℚ))
    (st : PhysicsState) : PhysicsState :=
  calls.foldl (fun s c => update env c.1 c.2 s) st

/-! ### List surgery helper lemmas -/

lemma getD_set_self {α : Type} (l : List α) (i : ℕ) (a d : α)
    (h : i < l.length) : (l.set i a).getD i d = a := by
  rw [List.getD_eq_getElem?_getD, List.getElem?_set_self (by simpa using h)]
  rfl

lemma getD_set_ne {α : Type} (l : List α) (i j : ℕ) (a d : α) (h : i ≠ j) :
    (l.set i a).getD j d = l.getD j d := by
  rw [List.getD_eq_getElem?_getD, List.getElem?_set_ne h,
    ← List.getD_eq_getElem?_getD]

lemma foldl_step_length {α β : Type} (step : List α → β → List α)
    (hstep : ∀ a i, (step a i).length = a.length) (js : List β)
    (acc : List α) : (js.foldl step acc).length = acc.length := by
  induction js generalizing acc with
  | nil => rfl
  | cons hd tl ih => rw [List.foldl_cons, ih, hstep]

lemma foldl_step_getD {α : Type} (d : α) (step : List α → ℕ → List α)
    (js : List ℕ) (acc : List α) (j : ℕ)
    (hstep : ∀ a i, i ∈ js → (step a i).getD j d = a.getD j d) :
    (js.foldl step acc).getD j d = acc.getD j d := by
  induction js generalizing acc with
  | nil => rfl
  | cons hd tl ih =>
    rw [List.foldl_cons, ih _ (fun a i hi => hstep a i (List.mem_cons_of_mem _ hi)),
      hstep _ _ (List.mem_cons_self _ _)]

lemma foldl_preserve_mem {σ β : Type} (P : σ → Prop) (step : σ → β → σ)
    (js : List β) (s : σ) (h : ∀ s i, i ∈ js → P s → P (step s i))
    (hs : P s) : P (js.foldl step s) := by
  induction js generalizing s with
  | nil => exact hs
  | cons hd tl ih =>
    exact ih _ (fun s i hi => h s i (List.mem_cons_of_mem _ hi))
      (h s hd (List.mem_cons_self _ _) hs)

lemma range_split (p n : ℕ) (h : p < n) :
    List.range n = List.range p ++ p :: List.range' (p + 1) (n - p - 1) := by
  obtain ⟨m, rfl⟩ : ∃ m, n = p + (m + 1) := ⟨n - p - 1, by omega⟩
  have h1 := List.range'_append 0 p (m + 1) 1
  simp only [zero_add, one_mul] at h1
  rw [show p + (m + 1) - p - 1 = m by omega, List.range_eq_range',
    show p + (m + 1) = m + 1 + p by omega, ← h1, List.range'_succ,
    List.range_eq_range']

lemma copyWithin_length (l : List ℚ) (t s f : ℕ) :
    (copyWithin l t s f).length = l.length := by
  unfold copyWithin
  exact foldl_step_length _ (fun a i => List.length_set a _ _) _ _

lemma resetTrailXY_length (l : List ℚ) (headIdx ts : ℕ) (x y : ℚ) :
    (resetTrailXY l headIdx ts x y).length = l.length := by
  unfold resetTrailXY
  exact foldl_step_length _
    (fun a i => by rw [List.length_set, List.length_set]) _ _

lemma copyWithin_getD_out (l : List ℚ) (t s f j : ℕ)
    (h : ∀ i < f - s, t + i ≠ j) :
    (copyWithin l t s f).getD j 0 = l.getD j 0 := by
  unfold copyWithin
  exact foldl_step_getD 0 _ _ _ _
    (fun a i hi => getD_set_ne _ _ _ _ _ (h i (List.mem_range.mp hi)))

lemma resetTrailXY_getD_out (l : List ℚ) (headIdx ts : ℕ) (x y : ℚ) (j : ℕ)
    (h : ∀ t < ts, (headIdx + t) * 3 ≠ j ∧ (headIdx + t) * 3 + 1 ≠ j) :
    (resetTrailXY l headIdx ts x y).getD j 0 = l.getD j 0 := by
  unfold resetTrailXY
  refine foldl_step_getD 0 _ _ _ _ (fun a i hi => ?_)
  have hi' := List.mem_range.mp hi
  rw [getD_set_ne _ _ _ _ _ (h i hi').2, getD_set_ne _ _ _ _ _ (h i hi').1]

/-! ### Engine invariants -/

lemma updateParticle_invariant (env : PhysicsEnv) (t d : ℚ)
    (st : PhysicsState) (p : ℕ) :
    (updateParticle env t d st p).buffers.positions.length =
      st.buffers.positions.length ∧
    (updateParticle env t d st p).buffers.ages.length =
      st.buffers.ages.length ∧
    (updateParticle env t d st p).buffers.respawnData =
      st.buffers.respawnData ∧
    (updateParticle env t d st p).buffers.sizes = st.buffers.sizes ∧
    (updateParticle env t d st p).buffers.colors = st.buffers.colors ∧
    (updateParticle env t d st p).buffers.trailIndices =
      st.buffers.trailIndices ∧
    (updateParticle env t d st p).buffers.trailPositions =
      st.buffers.trailPositions ∧
    (updateParticle env t d st p).headPositions.length =
      st.headPositions.length ∧
    (updateParticle env t d st p).respawnCounters.length =
      st.respawnCounters.length ∧
    ((∀ c ∈ st.respawnCounters, c < 16) →
      ∀ c ∈ (updateParticle env t d st p).respawnCounters, c < 16) := by
  by_cases ho : outOfBounds (integratedPos env t d st p).1
    (integratedPos env t d st p).2
  · simp only [updateParticle, ho, if_true]
    refine ⟨?_, ?_, trivial, trivial, trivial, trivial, trivial, ?_, ?_, ?_⟩
    · simp only [List.length_set, copyWithin_length, resetTrailXY_length]
    · simp only [List.length_set, copyWithin_length]
    · simp only [List.length_set]
    · simp only [List.length_set]
    · intro hall c hc
      rcases List.mem_or_eq_of_mem_set hc with h | h
      · exact hall c h
      · rw [h]
        exact Nat.mod_lt _ (by norm_num [RESPAWN_POOL_SIZE])
  · simp only [updateParticle, ho, if_false]
    refine ⟨?_, ?_, trivial, trivial, trivial, trivial, trivial, ?_, trivial, ?_⟩
    · simp only [List.length_set, copyWithin_length]
    · simp only [List.length_set, copyWithin_length]
    · simp only [List.length_set]
    · intro hall
      exact hall

lemma block_ne_aux (p q B i j : ℕ) (h : q < p) (hi : i < B) :
    q * B + i ≠ p * B + j := by
  intro he
  have h2 : q * B + B ≤ p * B := by
    have h3 := Nat.mul_le_mul_right B (Nat.succ_le_of_lt h)
    rwa [Nat.succ_mul] at h3
  have h4 : p * B ≤ q * B + i := by
    calc p * B ≤ p * B + j := Nat.le_add_right _ _
    _ = q * B + i := he.symm
  have h5 : q * B + B ≤ q * B + i := le_trans h2 h4
  have h6 : B ≤ i := Nat.le_of_add_le_add_left h5
  omega

lemma block_ne' (p q B i j : ℕ) (hne : q ≠ p) (hi : i < B) (hj : j < B) :
    q * B + i ≠ p * B + j := by
  rcases Nat.lt_or_ge q p with h | h
  · exact block_ne_aux p q B i j h hi
  · exact (block_ne_aux q p B j i (lt_of_le_of_ne h (Ne.symm hne)) hj).symm

lemma blockIdx_ne (p q ts a b : ℕ) (hne : q ≠ p) (ha : a < ts * 3)
    (hb : b < ts * 3) : q * ts * 3 + a ≠ p * ts * 3 + b := by
  have h := block_ne' p q (ts * 3) a b hne ha hb
  rwa [← Nat.mul_assoc, ← Nat.mul_assoc] at h

lemma updateParticle_frame (env : PhysicsEnv) (t d : ℚ) (st : PhysicsState)
    (q p : ℕ) (hne : q ≠ p) (hts : 1 ≤ env.trailSegments) :
    (updateParticle env t d st q).headPositions.getD (p * 3) 0 =
      st.headPositions.getD (p * 3) 0 ∧
    (updateParticle env t d st q).headPositions.getD (p * 3 + 1) 0 =
      st.headPositions.getD (p * 3 + 1) 0 ∧
    (updateParticle env t d st q).respawnCounters.getD p 0 =
      st.respawnCounters.getD p 0 ∧
    (updateParticle env t d st q).buffers.ages.getD
        (p * env.trailSegments) 0 =
      st.buffers.ages.getD (p * env.trailSegments) 0 ∧
    (updateParticle env t d st q).buffers.positions.getD
        (p * env.trailSegments * 3) 0 =
      st.buffers.positions.getD (p * env.trailSegments * 3) 0 ∧
    (updateParticle env t d st q).buffers.positions.getD
        (p * env.trailSegments * 3 + 1) 0 =
      st.buffers.positions.getD (p * env.trailSegments * 3 + 1) 0 := by
  set ts := env.trailSegments with hts'
  have hhd : ∀ (l : List ℚ) (x y : ℚ),
      ((l.set (q * 3) x).set (q * 3 + 1) y).getD (p * 3) 0 = l.getD (p * 3) 0 ∧
      ((l.set (q * 3) x).set (q * 3 + 1) y).getD (p * 3 + 1) 0 =
        l.getD (p * 3 + 1) 0 := by
    intro l x y
    constructor
    · rw [getD_set_ne _ _ _ _ _ (by omega), getD_set_ne _ _ _ _ _ (by omega)]
    · rw [getD_set_ne _ _ _ _ _ (by omega), getD_set_ne _ _ _ _ _ (by omega)]
  have hagesCW : ∀ l : List ℚ,
      (copyWithin l (q * ts + 1) (q * ts) (q * ts + (ts - 1))).getD
        (p * ts) 0 = l.getD (p * ts) 0 := by
    intro l
    refine copyWithin_getD_out _ _ _ _ _ (fun i hi => ?_)
    rw [Nat.add_sub_cancel_left] at hi
    have : q * ts + 1 + i = q * ts + (1 + i) := by omega
    rw [this]
    exact block_ne' p q ts (1 + i) 0 hne (by omega) (by omega)
  have hagesSet : ∀ (l : List ℚ) (v : ℚ),
      (l.set (q * ts) v).getD (p * ts) 0 = l.getD (p * ts) 0 := by
    intro l v
    have h0 := block_ne' p q ts 0 0 hne (by omega) (by omega)
    exact getD_set_ne _ _ _ _ _ (by omega)
  have hne3 : ∀ a : ℕ, a < ts * 3 →
      (q * ts * 3 + a ≠ p * ts * 3 ∧ q * ts * 3 + a ≠ p * ts * 3 + 1) := by
    intro a ha
    have h0 := blockIdx_ne p q ts a 0 hne ha (by omega)
    have h1 := blockIdx_ne p q ts a 1 hne ha (by omega)
    rw [Nat.add_zero] at h0
    exact ⟨h0, h1⟩
  have hposCW : ∀ (l : List ℚ) (jb : ℕ),
      (jb = p * ts * 3 ∨ jb = p * ts * 3 + 1) →
      (copyWithin l (q * ts * 3 + 3) (q * ts * 3)
          (q * ts * 3 + (ts - 1) * 3)).getD jb 0 = l.getD jb 0 := by
    intro l jb hjb
    refine copyWithin_getD_out _ _ _ _ _ (fun i hi => ?_)
    rw [Nat.add_sub_cancel_left] at hi
    have he : q * ts * 3 + 3 + i = q * ts * 3 + (3 + i) := by omega
    rw [he]
    rcases hjb with rfl | rfl
    · exact (hne3 (3 + i) (by omega)).1
    · exact (hne3 (3 + i) (by omega)).2
  have hposSet : ∀ (l : List ℚ) (a : ℕ) (v : ℚ) (jb : ℕ), a < ts * 3 →
      (jb = p * ts * 3 ∨ jb = p * ts * 3 + 1) →
      (l.set (q * ts * 3 + a) v).getD jb 0 = l.getD jb 0 := by
    intro l a v jb ha hjb
    rcases hjb with rfl | rfl
    · exact getD_set_ne _ _ _ _ _ (hne3 a ha).1
    · exact getD_set_ne _ _ _ _ _ (hne3 a ha).2
  have hposHead : ∀ (l : List ℚ) (v : ℚ) (jb : ℕ),
      (jb = p * ts * 3 ∨ jb = p * ts * 3 + 1) →
      (l.set (q * ts * 3) v).getD jb 0 = l.getD jb 0 := by
    intro l v jb hjb
    have ha := hne3 0 (by omega)
    rw [Nat.add_zero] at ha
    rcases hjb with rfl | rfl
    · exact getD_set_ne _ _ _ _ _ ha.1
    · exact getD_set_ne _ _ _ _ _ ha.2
  have hposReset : ∀ (l : List ℚ) (x y : ℚ) (jb : ℕ),
      (jb = p * ts * 3 ∨ jb = p * ts * 3 + 1) →
      (resetTrailXY l (q * ts) ts x y).getD jb 0 = l.getD jb 0 := by
    intro l x y jb hjb
    refine resetTrailXY_getD_out _ _ _ _ _ _ (fun u hu => ?_)
    have e1 : (q * ts + u) * 3 = q * ts * 3 + 3 * u := by ring
    have e2 : (q * ts + u) * 3 + 1 = q * ts * 3 + (3 * u + 1) := by
      rw [e1]
      omega
    rcases hjb with rfl | rfl
    · rw [e2, e1]
      exact ⟨(hne3 (3 * u) (by omega)).1, (hne3 (3 * u + 1) (by omega)).1⟩
    · rw [e2, e1]
      exact ⟨(hne3 (3 * u) (by omega)).2, (hne3 (3 * u + 1) (by omega)).2⟩
  by_cases ho : outOfBounds (integratedPos env t d st q).1
    (integratedPos env t d st q).2
  · simp only [updateParticle, ho, if_true, ← hts']
    refine ⟨(hhd _ _ _).1, (hhd _ _ _).2,
      getD_set_ne _ _ _ _ _ (by omega), ?_, ?_, ?_⟩
    · rw [hagesSet, hagesCW, hagesSet]
    · rw [hposSet _ 2 _ _ (by omega) (Or.inl rfl),
        hposSet _ 1 _ _ (by omega) (Or.inl rfl),
        hposHead _ _ _ (Or.inl rfl), hposCW _ _ (Or.inl rfl),
        hposReset _ _ _ _ (Or.inl rfl)]
    · rw [hposSet _ 2 _ _ (by omega) (Or.inr rfl),
        hposSet _ 1 _ _ (by omega) (Or.inr rfl),
        hposHead _ _ _ (Or.inr rfl), hposCW _ _ (Or.inr rfl),
        hposReset _ _ _ _ (Or.inr rfl)]
  · simp only [updateParticle, ho, if_false, ← hts']
    refine ⟨(hhd _ _ _).1, (hhd _ _ _).2, trivial, ?_, ?_, ?_⟩
    · rw [hagesSet, hagesCW]
    · rw [hposSet _ 2 _ _ (by omega) (Or.inl rfl),
        hposSet _ 1 _ _ (by omega) (Or.inl rfl),
        hposHead _ _ _ (Or.inl rfl), hposCW _ _ (Or.inl rfl)]
    · rw [hposSet _ 2 _ _ (by omega) (Or.inr rfl),
        hposSet _ 1 _ _ (by omega) (Or.inr rfl),
        hposHead _ _ _ (Or.inr rfl), hposCW _ _ (Or.inr rfl)]

lemma integratedPos_congr (env : PhysicsEnv) (t d : ℚ)
    (s1 s2 : PhysicsState) (p : ℕ)
    (h1 : s1.headPositions.getD (p * 3) 0 = s2.headPositions.getD (p * 3) 0)
    (h2 : s1.headPositions.getD (p * 3 + 1) 0 =
      s2.headPositions.getD (p * 3 + 1) 0) :
    integratedPos env t d s1 p = integratedPos env t d s2 p := by
  unfold integratedPos
  rw [h1, h2]

lemma updateParticle_respawn (env : PhysicsEnv) (t d : ℚ)
    (s : PhysicsState) (p : ℕ)
    (hts : 1 ≤ env.trailSegments)
    (hp : p < env.particleCount)
    (hhl : s.headPositions.length = env.particleCount * 3)
    (hal : s.buffers.ages.length = env.particleCount * env.trailSegments)
    (hpl : s.buffers.positions.length =
      env.particleCount * env.trailSegments * 3)
    (hout : outOfBounds (integratedPos env t d s p).1
      (integratedPos env t d s p).2) :
    (updateParticle env t d s p).headPositions.getD (p * 3) 0 =
      (s.buffers.respawnData.getD
        (p * RESPAWN_POOL_SIZE + s.respawnCounters.getD p 0) (0, 0)).1 ∧
    (updateParticle env t d s p).headPositions.getD (p * 3 + 1) 0 =
      (s.buffers.respawnData.getD
        (p * RESPAWN_POOL_SIZE + s.respawnCounters.getD p 0) (0, 0)).2 ∧
    (updateParticle env t d s p).buffers.positions.getD
        (p * env.trailSegments * 3) 0 =
      (s.buffers.respawnData.getD
        (p * RESPAWN_POOL_SIZE + s.respawnCounters.getD p 0) (0, 0)).1 ∧
    (updateParticle env t d s p).buffers.positions.getD
        (p * env.trailSegments * 3 + 1) 0 =
      (s.buffers.respawnData.getD
        (p * RESPAWN_POOL_SIZE + s.respawnCounters.getD p 0) (0, 0)).2 ∧
    (updateParticle env t d s p).buffers.ages.getD
        (p * env.trailSegments) 0 = min (min d 0.05 * 0.5) 1 := by
  set ts := env.trailSegments with hts'
  have hmul : p * ts + ts ≤ env.particleCount * ts := by
    have h1 := Nat.mul_le_mul_right ts (Nat.succ_le_of_lt hp)
    rwa [Nat.succ_mul] at h1
  have hage_lt : p * ts < s.buffers.ages.length := by
    rw [hal]
    linarith
  have hpos_lt : ∀ b, b < 3 → p * ts * 3 + b < env.particleCount * ts * 3 := by
    intro b hb
    have h3 : (p * ts) * 3 + ts * 3 ≤ (env.particleCount * ts) * 3 := by
      linarith
    linarith
  simp only [updateParticle, hout, if_true, ← hts']
  have hcwAges : ∀ l : List ℚ,
      (copyWithin l (p * ts + 1) (p * ts) (p * ts + (ts - 1))).getD
        (p * ts) 0 = l.getD (p * ts) 0 := by
    intro l
    refine copyWithin_getD_out _ _ _ _ _ (fun i hi => ?_)
    omega
  refine ⟨?_, ?_, ?_, ?_, ?_⟩
  · rw [getD_set_ne _ _ _ _ _ (by omega)]
    exact getD_set_self _ _ _ _ (by rw [hhl]; omega)
  · refine getD_set_self _ _ _ _ ?_
    rw [List.length_set, hhl]
    omega
  · rw [getD_set_ne _ _ _ _ _ (by omega), getD_set_ne _ _ _ _ _ (by omega)]
    refine getD_set_self _ _ _ _ ?_
    rw [copyWithin_length, resetTrailXY_length, hpl]
    simpa using hpos_lt 0 (by omega)
  · rw [getD_set_ne _ _ _ _ _ (by omega)]
    refine getD_set_self _ _ _ _ ?_
    rw [List.length_set, copyWithin_length, resetTrailXY_length, hpl]
    exact hpos_lt 1 (by omega)
  · have hv : (copyWithin (s.buffers.ages.set (p * ts) 0) (p * ts + 1)
        (p * ts) (p * ts + (ts - 1))).getD (p * ts) 0 = 0 := by
      rw [hcwAges]
      exact getD_set_self _ _ _ _ hage_lt
    rw [getD_set_self _ _ _ _ (by rw [copyWithin_length, List.length_set]; exact hage_lt),
      hv, zero_add]

/-- C8 (amended): if particle `p`'s integrated head position leaves the
margin band during an `update` call, then after that call its head position
(both in the head cache and in the position buffer) equals the pool entry at
the particle's current respawn-counter index — one of the
`RESPAWN_POOL_SIZE` precomputed entries stored for `p` — and its head age
equals `min(min(delta, 0.05) * 0.5, 1)` (reset to zero by the respawn, then
advanced by the same frame's aging step). -/
theorem update_respawn_from_pool (env : PhysicsEnv) (t d : ℚ)
    (st : PhysicsState) (p : ℕ)
    (hts : 1 ≤ env.trailSegments)
    (hp : p < env.particleCount)
    (hhl : st.headPositions.length = env.particleCount * 3)
    (hal : st.buffers.ages.length = env.particleCount * env.trailSegments)
    (hpl : st.buffers.positions.length =
      env.particleCount * env.trailSegments * 3)
    (hctr : st.respawnCounters.getD p 0 < RESPAWN_POOL_SIZE)
    (hout : outOfBounds (integratedPos env t d st p).1
      (integratedPos env t d st p).2) :
    ∃ r < RESPAWN_POOL_SIZE,
      (update env t d st).headPositions.getD (p * 3) 0 =
        (st.buffers.respawnData.getD (p * RESPAWN_POOL_SIZE + r) (0, 0)).1 ∧
      (update env t d st).headPositions.getD (p * 3 + 1) 0 =
        (st.buffers.respawnData.getD (p * RESPAWN_POOL_SIZE + r) (0, 0)).2 ∧
      (update env t d st).buffers.positions.getD
          (p * env.trailSegments * 3) 0 =
        (st.buffers.respawnData.getD (p * RESPAWN_POOL_SIZE + r) (0, 0)).1 ∧
      (update env t d st).buffers.positions.getD
          (p * env.trailSegments * 3 + 1) 0 =
        (st.buffers.respawnData.getD (p * RESPAWN_POOL_SIZE + r) (0, 0)).2 ∧
      (update env t d st).buffers.ages.getD (p * env.trailSegments) 0 =
        min (min d 0.05 * 0.5) 1 := by
  refine ⟨st.respawnCounters.getD p 0, hctr, ?_⟩
  unfold update
  rw [range_split p env.particleCount hp, List.foldl_append, List.foldl_cons]
  have hP1 := foldl_preserve_mem
    (fun s' : PhysicsState =>
      s'.headPositions.getD (p * 3) 0 = st.headPositions.getD (p * 3) 0 ∧
      s'.headPositions.getD (p * 3 + 1) 0 =
        st.headPositions.getD (p * 3 + 1) 0 ∧
      s'.respawnCounters.getD p 0 = st.respawnCounters.getD p 0 ∧
      s'.buffers.respawnData = st.buffers.respawnData ∧
      s'.headPositions.length = env.particleCount * 3 ∧
      s'.buffers.ages.length = env.particleCount * env.trailSegments ∧
      s'.buffers.positions.length =
        env.particleCount * env.trailSegments * 3)
    (updateParticle env t d) (List.range p) st
    (fun s' q hq hPs => by
      have hqp : q ≠ p := by
        have := List.mem_range.mp hq
        omega
      have hf := updateParticle_frame env t d s' q p hqp hts
      have hi := updateParticle_invariant env t d s' q
      exact ⟨hf.1.trans hPs.1, hf.2.1.trans hPs.2.1,
        hf.2.2.1.trans hPs.2.2.1, hi.2.2.1.trans hPs.2.2.2.1,
        hi.2.2.2.2.2.2.2.1.trans hPs.2.2.2.2.1,
        hi.2.1.trans hPs.2.2.2.2.2.1, hi.1.trans hPs.2.2.2.2.2.2⟩)
    ⟨rfl, rfl, rfl, rfl, hhl, hal, hpl⟩
  set s1 := (List.range p).foldl (updateParticle env t d) st with hs1
  have hip : integratedPos env t d s1 p = integratedPos env t d st p :=
    integratedPos_congr env t d s1 st p hP1.1 hP1.2.1
  have hstep := updateParticle_respawn env t d s1 p hts hp hP1.2.2.2.2.1
    hP1.2.2.2.2.2.1 hP1.2.2.2.2.2.2 (by rw [hip]; exact hout)
  rw [hP1.2.2.2.1, hP1.2.2.1] at hstep
  have hinv2 := updateParticle_invariant env t d s1 p
  have hP2 := foldl_preserve_mem
    (fun s' : PhysicsState =>
      s'.headPositions.getD (p * 3) 0 =
        (st.buffers.respawnData.getD
          (p * RESPAWN_POOL_SIZE + st.respawnCounters.getD p 0) (0, 0)).1 ∧
      s'.headPositions.getD (p * 3 + 1) 0 =
        (st.buffers.respawnData.getD
          (p * RESPAWN_POOL_SIZE + st.respawnCounters.getD p 0) (0, 0)).2 ∧
      s'.buffers.positions.getD (p * env.trailSegments * 3) 0 =
        (st.buffers.respawnData.getD
          (p * RESPAWN_POOL_SIZE + st.respawnCounters.getD p 0) (0, 0)).1 ∧
      s'.buffers.positions.getD (p * env.trailSegments * 3 + 1) 0 =
        (st.buffers.respawnData.getD
          (p * RESPAWN_POOL_SIZE + st.respawnCounters.getD p 0) (0, 0)).2 ∧
      s'.buffers.ages.getD (p * env.trailSegments) 0 =
        min (min d 0.05 * 0.5) 1)
    (updateParticle env t d) (List.range' (p + 1) (env.particleCount - p - 1))
    (updateParticle env t d s1 p)
    (fun s' q hq hPs => by
      have hqp : q ≠ p := by
        have := (List.mem_range'_1.mp hq).1
        omega
      have hf := updateParticle_frame env t d s' q p hqp hts
      exact ⟨hf.1.trans hPs.1, hf.2.1.trans hPs.2.1,
        hf.2.2.2.2.1.trans hPs.2.2.1, hf.2.2.2.2.2.trans hPs.2.2.2.1,
        hf.2.2.2.1.trans hPs.2.2.2.2⟩)
    ⟨hstep.1, hstep.2.1, hstep.2.2.1, hstep.2.2.2.1, hstep.2.2.2.2⟩
  exact ⟨hP2.1, hP2.2.1, hP2.2.2.1, hP2.2.2.2.1, hP2.2.2.2.2⟩

lemma update_invariant (env : PhysicsEnv) (t d : ℚ) (st : PhysicsState) :
    (update env t d st).buffers.positions.length =
      st.buffers.positions.length ∧
    (update env t d st).buffers.ages.length = st.buffers.ages.length ∧
    (update env t d st).buffers.respawnData = st.buffers.respawnData ∧
    (update env t d st).buffers.sizes = st.buffers.sizes ∧
    (update env t d st).buffers.colors = st.buffers.colors ∧
    (update env t d st).buffers.trailIndices = st.buffers.trailIndices ∧
    (update env t d st).buffers.trailPositions = st.buffers.trailPositions ∧
    (update env t d st).headPositions.length = st.headPositions.length ∧
    (update env t d st).respawnCounters.length =
      st.respawnCounters.length ∧
    ((∀ c ∈ st.respawnCounters, c < RESPAWN_POOL_SIZE) →
      ∀ c ∈ (update env t d st).respawnCounters, c < RESPAWN_POOL_SIZE) := by
  unfold update
  refine foldl_preserve_mem
    (fun s' : PhysicsState =>
      s'.buffers.positions.length = st.buffers.positions.length ∧
      s'.buffers.ages.length = st.buffers.ages.length ∧
      s'.buffers.respawnData = st.buffers.respawnData ∧
      s'.buffers.sizes = st.buffers.sizes ∧
      s'.buffers.colors = st.buffers.colors ∧
      s'.buffers.trailIndices = st.buffers.trailIndices ∧
      s'.buffers.trailPositions = st.buffers.trailPositions ∧
      s'.headPositions.length = st.headPositions.length ∧
      s'.respawnCounters.length = st.respawnCounters.length ∧
      ((∀ c ∈ st.respawnCounters, c < RESPAWN_POOL_SIZE) →
        ∀ c ∈ s'.respawnCounters, c < RESPAWN_POOL_SIZE))
    (updateParticle env t d) (List.range env.particleCount) st
    (fun s' q _ hPs => ?_) ?_
  · have hi := updateParticle_invariant env t d s' q
    refine ⟨hi.1.trans hPs.1, hi.2.1.trans hPs.2.1,
      hi.2.2.1.trans hPs.2.2.1, hi.2.2.2.1.trans hPs.2.2.2.1,
      hi.2.2.2.2.1.trans hPs.2.2.2.2.1,
      hi.2.2.2.2.2.1.trans hPs.2.2.2.2.2.1,
      hi.2.2.2.2.2.2.1.trans hPs.2.2.2.2.2.2.1,
      hi.2.2.2.2.2.2.2.1.trans hPs.2.2.2.2.2.2.2.1,
      hi.2.2.2.2.2.2.2.2.1.trans hPs.2.2.2.2.2.2.2.2.1, ?_⟩
    intro hall
    have h16 : ∀ c ∈ s'.respawnCounters, c < 16 := by
      have := hPs.2.2.2.2.2.2.2.2.2 hall
      simpa [RESPAWN_POOL_SIZE] using this
    have := hi.2.2.2.2.2.2.2.2.2 h16
    simpa [RESPAWN_POOL_SIZE] using this
  · exact ⟨rfl, rfl, rfl, rfl, rfl, rfl, rfl, rfl, rfl, fun h => h⟩

/-- C7: over any finite sequence of `update(time, delta)` calls the engine
allocates nothing: the position, age and respawn-pool buffers (and all other
buffers) keep their sizes, the respawn pool itself is never rewritten after
creation, the head cache and counter arrays keep their sizes, and every
respawn counter stays below the fixed pool size. -/
theorem runUpdates_bounded (env : PhysicsEnv) (calls : List (ℚ × ℚ))
    (st : PhysicsState)
    (h16 : ∀ c ∈ st.respawnCounters, c < RESPAWN_POOL_SIZE) :
    (runUpdates env calls st).buffers.positions.length =
      st.buffers.positions.length ∧
    (runUpdates env calls st).buffers.ages.length =
      st.buffers.ages.length ∧
    (runUpdates env calls st).buffers.respawnData =
      st.buffers.respawnData ∧
    (runUpdates env calls st).buffers.sizes = st.buffers.sizes ∧
    (runUpdates env calls st).buffers.colors = st.buffers.colors ∧
    (runUpdates env calls st).buffers.trailIndices =
      st.buffers.trailIndices ∧
    (runUpdates env calls st).buffers.trailPositions =
      st.buffers.trailPositions ∧
    (runUpdates env calls st).headPositions.length =
      st.headPositions.length ∧
    (runUpdates env calls st).respawnCounters.length =
      st.respawnCounters.length ∧
    (∀ c ∈ (runUpdates env calls st).respawnCounters,
      c < RESPAWN_POOL_SIZE) := by
  unfold runUpdates
  refine foldl_preserve_mem
    (fun s' : PhysicsState =>
      s'.buffers.positions.length = st.buffers.positions.length ∧
      s'.buffers.ages.length = st.buffers.ages.length ∧
      s'.buffers.respawnData = st.buffers.respawnData ∧
      s'.buffers.sizes = st.buffers.sizes ∧
      s'.buffers.colors = st.buffers.colors ∧
      s'.buffers.trailIndices = st.buffers.trailIndices ∧
      s'.buffers.trailPositions = st.buffers.trailPositions ∧
      s'.headPositions.length = st.headPositions.length ∧
      s'.respawnCounters.length = st.respawnCounters.length ∧
      (∀ c ∈ s'.respawnCounters, c < RESPAWN_POOL_SIZE))
    _ calls st (fun s' c _ hPs => ?_) ?_
  · have hu := update_invariant env c.1 c.2 s'
    exact ⟨hu.1.trans hPs.1, hu.2.1.trans hPs.2.1,
      hu.2.2.1.trans hPs.2.2.1, hu.2.2.2.1.trans hPs.2.2.2.1,
      hu.2.2.2.2.1.trans hPs.2.2.2.2.1,
      hu.2.2.2.2.2.1.trans hPs.2.2.2.2.2.1,
      hu.2.2.2.2.2.2.1.trans hPs.2.2.2.2.2.2.1,
      hu.2.2.2.2.2.2.2.1.trans hPs.2.2.2.2.2.2.2.1,
      hu.2.2.2.2.2.2.2.2.1.trans hPs.2.2.2.2.2.2.2.2.1,
      hu.2.2.2.2.2.2.2.2.2 hPs.2.2.2.2.2.2.2.2.2⟩
  · exact ⟨rfl, rfl, rfl, rfl, rfl, rfl, rfl, rfl, rfl, h16⟩

lemma updateParticle_counter_frame (env : PhysicsEnv) (t d : ℚ)
    (s : PhysicsState) (q p : ℕ) (hne : q ≠ p) :
    (updateParticle env t d s q).respawnCounters.getD p 0 =
      s.respawnCounters.getD p 0 := by
  by_cases ho : outOfBounds (integratedPos env t d s q).1
    (integratedPos env t d s q).2
  · simp only [updateParticle, ho, if_true]
    exact getD_set_ne _ _ _ _ _ hne
  · simp only [updateParticle, ho, if_false]

lemma updateParticle_counter_self (env : PhysicsEnv) (t d : ℚ)
    (s : PhysicsState) (p : ℕ) :
    (updateParticle env t d s p).respawnCounters.getD p 0 =
      s.respawnCounters.getD p 0 ∨
    (updateParticle env t d s p).respawnCounters.getD p 0 =
      (s.respawnCounters.getD p 0 + 1) % RESPAWN_POOL_SIZE := by
  by_cases ho : outOfBounds (integratedPos env t d s p).1
    (integratedPos env t d s p).2
  · simp only [updateParticle, ho, if_true]
    rcases Nat.lt_or_ge p s.respawnCounters.length with hlt | hge
    · right
      exact getD_set_self _ _ _ _ hlt
    · left
      rw [List.set_eq_of_length_le hge]
  · left
    simp only [updateParticle, ho, if_false]

lemma update_counter_step (env : PhysicsEnv) (t d : ℚ) (s : PhysicsState)
    (p : ℕ) :
    (update env t d s).respawnCounters.getD p 0 =
      s.respawnCounters.getD p 0 ∨
    (update env t d s).respawnCounters.getD p 0 =
      (s.respawnCounters.getD p 0 + 1) % RESPAWN_POOL_SIZE := by
  unfold update
  rcases Nat.lt_or_ge p env.particleCount with hp | hp
  · rw [range_split p env.particleCount hp, List.foldl_append,
      List.foldl_cons]
    have hP1 := foldl_preserve_mem
      (fun s' : PhysicsState =>
        s'.respawnCounters.getD p 0 = s.respawnCounters.getD p 0)
      (updateParticle env t d) (List.range p) s
      (fun s' q hq hPs => by
        have hqp : q ≠ p := by
          have := List.mem_range.mp hq
          omega
        exact (updateParticle_counter_frame env t d s' q p hqp).trans hPs)
      rfl
    set s1 := (List.range p).foldl (updateParticle env t d) s with hs1
    have hstep := updateParticle_counter_self env t d s1 p
    rw [hP1] at hstep
    rcases hstep with h | h
    · left
      exact foldl_preserve_mem
        (fun s' : PhysicsState =>
          s'.respawnCounters.getD p 0 = s.respawnCounters.getD p 0)
        (updateParticle env t d) _ _
        (fun s' q hq hPs => by
          have hqp : q ≠ p := by
            have := (List.mem_range'_1.mp hq).1
            omega
          exact (updateParticle_counter_frame env t d s' q p hqp).trans hPs)
        h
    · right
      exact foldl_preserve_mem
        (fun s' : PhysicsState =>
          s'.respawnCounters.getD p 0 =
            (s.respawnCounters.getD p 0 + 1) % RESPAWN_POOL_SIZE)
        (updateParticle env t d) _ _
        (fun s' q hq hPs => by
          have hqp : q ≠ p := by
            have := (List.mem_range'_1.mp hq).1
            omega
          exact (updateParticle_counter_frame env t d s' q p hqp).trans hPs)
        h
  · left
    exact foldl_preserve_mem
      (fun s' : PhysicsState =>
        s'.respawnCounters.getD p 0 = s.respawnCounters.getD p 0)
      (updateParticle env t d) (List.range env.particleCount) s
      (fun s' q hq hPs => by
        have hqp : q ≠ p := by
          have := List.mem_range.mp hq
          omega
        exact (updateParticle_counter_frame env t d s' q p hqp).trans hPs)
      rfl

lemma respawnData_getD (rnd : ℕ → ℚ) (pc ts k : ℕ)
    (hk : k < pc * RESPAWN_POOL_SIZE) :
    (createParticleBuffers rnd pc ts).respawnData.getD k (0, 0) =
      mkRespawnEntry (rnd (2 * k)) (rnd (2 * k + 1)) := by
  unfold createParticleBuffers
  rw [List.getD_eq_getElem?_getD]
  simp [List.getElem?_map, List.getElem?_range hk]

lemma mkRespawnEntry_cases (e c : ℚ) :
    mkRespawnEntry e c = ((c - 0.5) * 2, -1.05) ∨
    mkRespawnEntry e c = ((c - 0.5) * 2, 1.05) ∨
    mkRespawnEntry e c = (-1.05, (c - 0.5) * 2) ∨
    mkRespawnEntry e c = (1.05, (c - 0.5) * 2) := by
  by_cases h0 : (⌊e * 4⌋ : ℤ) = 0
  · left
    simp only [mkRespawnEntry, h0, if_true]
    norm_num
  by_cases h1 : (⌊e * 4⌋ : ℤ) = 1
  · right; left
    simp only [mkRespawnEntry, h0, h1, if_false, if_true]
    norm_num
  by_cases h2 : (⌊e * 4⌋ : ℤ) = 2
  · right; right; left
    simp only [mkRespawnEntry, h0, h1, h2, if_false, if_true]
    norm_num
  · right; right; right
    simp only [mkRespawnEntry, h0, h1, h2, if_false]
    norm_num

lemma mkRespawnEntry_props (e c : ℚ) (hc0 : 0 ≤ c) (hc1 : c ≤ 1) :
    (((mkRespawnEntry e c).1 = 1.05 ∨ (mkRespawnEntry e c).1 = -1.05) ∧
      -1 ≤ (mkRespawnEntry e c).2 ∧ (mkRespawnEntry e c).2 ≤ 1) ∨
    (((mkRespawnEntry e c).2 = 1.05 ∨ (mkRespawnEntry e c).2 = -1.05) ∧
      -1 ≤ (mkRespawnEntry e c).1 ∧ (mkRespawnEntry e c).1 ≤ 1) := by
  rcases mkRespawnEntry_cases e c with h | h | h | h
  all_goals rw [h]
  · right
    exact ⟨Or.inr rfl, by nlinarith, by nlinarith⟩
  · right
    exact ⟨Or.inl rfl, by nlinarith, by nlinarith⟩
  · left
    exact ⟨Or.inr rfl, by nlinarith, by nlinarith⟩
  · left
    exact ⟨Or.inl rfl, by nlinarith, by nlinarith⟩

lemma mkRespawnEntry_inBand (e c : ℚ) (hc0 : 0 ≤ c) (hc1 : c ≤ 1) :
    ¬ outOfBounds (mkRespawnEntry e c).1 (mkRespawnEntry e c).2 := by
  unfold outOfBounds
  push_neg
  rcases mkRespawnEntry_cases e c with h | h | h | h
  all_goals rw [h]
  all_goals exact ⟨by nlinarith, by nlinarith, by nlinarith, by nlinarith⟩

/-- C10: every precomputed respawn-pool entry has exactly one coordinate
equal to `±1.05` (that is, `1 + margin * 0.5` with `margin = 0.1`) while the
other lies in `[-1, 1]`; consequently no pool entry satisfies the
out-of-bounds predicate of the update loop, and during one `update` call a
particle's respawn counter advances at most once (it is either unchanged or
incremented once modulo the pool size). -/
theorem respawn_pool_entries (rnd : ℕ → ℚ)
    (hr : ∀ n, 0 ≤ rnd n ∧ rnd n ≤ 1) (pc ts k : ℕ)
    (hk : k < pc * RESPAWN_POOL_SIZE) (env : PhysicsEnv) (t d : ℚ)
    (s : PhysicsState) (p : ℕ) :
    (((((createParticleBuffers rnd pc ts).respawnData.getD k (0, 0)).1 = 1.05 ∨
       ((createParticleBuffers rnd pc ts).respawnData.getD k (0, 0)).1 = -1.05) ∧
      -1 ≤ ((createParticleBuffers rnd pc ts).respawnData.getD k (0, 0)).2 ∧
      ((createParticleBuffers rnd pc ts).respawnData.getD k (0, 0)).2 ≤ 1) ∨
    ((((createParticleBuffers rnd pc ts).respawnData.getD k (0, 0)).2 = 1.05 ∨
       ((createParticleBuffers rnd pc ts).respawnData.getD k (0, 0)).2 = -1.05) ∧
      -1 ≤ ((createParticleBuffers rnd pc ts).respawnData.getD k (0, 0)).1 ∧
      ((createParticleBuffers rnd pc ts).respawnData.getD k (0, 0)).1 ≤ 1)) ∧
    ¬ outOfBounds ((createParticleBuffers rnd pc ts).respawnData.getD k
        (0, 0)).1
      ((createParticleBuffers rnd pc ts).respawnData.getD k (0, 0)).2 ∧
    ((update env t d s).respawnCounters.getD p 0 =
        s.respawnCounters.getD p 0 ∨
      (update env t d s).respawnCounters.getD p 0 =
        (s.respawnCounters.getD p 0 + 1) % RESPAWN_POOL_SIZE) := by
  refine ⟨?_, ?_, update_counter_step env t d s p⟩
  · rw [respawnData_getD rnd pc ts k hk]
    exact mkRespawnEntry_props _ _ (hr (2 * k + 1)).1 (hr (2 * k + 1)).2
  · rw [respawnData_getD rnd pc ts k hk]
    exact mkRespawnEntry_inBand _ _ (hr (2 * k + 1)).1 (hr (2 * k + 1)).2

/-- Concrete engine parameters for instantiating the physics theorems: one
particle, two trail segments, a constant rightward velocity field strong
enough to leave the margin band in one frame. -/
def envW : PhysicsEnv :=
  { particleCount := 1, trailSegments := 2, seed := 0, complexity := 5,
    organicness := 0.5, animSpeed := 2,
    vel := fun _ _ _ _ _ _ => (1000, 0) }

/-- Concrete engine state matching `envW`: heads at the origin, staggered
ages, a constant respawn pool on the left margin edge. -/
def stW : PhysicsState :=
  { buffers :=
      { positions := [0, 0, 0.1, 0, 0, 0.1]
        trailPositions := []
        sizes := []
        ages := [0.5, 0.5]
        colors := []
        trailIndices := []
        respawnData := List.replicate 16 (-1.05, 0) }
    headPositions := [0, 0, 0.1]
    respawnCounters := [0] }

/-- Witness for C7 at the concrete engine: counters start below the pool
size and the buffers keep their sizes over one update call. -/
theorem runUpdates_bounded_witness :
    (∀ c ∈ stW.respawnCounters, c < RESPAWN_POOL_SIZE) ∧
    ((runUpdates envW [(0, 1 / 100)] stW).buffers.positions.length =
      stW.buffers.positions.length ∧
     (runUpdates envW [(0, 1 / 100)] stW).buffers.ages.length =
      stW.buffers.ages.length ∧
     (runUpdates envW [(0, 1 / 100)] stW).buffers.respawnData =
      stW.buffers.respawnData ∧
     ∀ c ∈ (runUpdates envW [(0, 1 / 100)] stW).respawnCounters,
       c < RESPAWN_POOL_SIZE) := by
  have h16 : ∀ c ∈ stW.respawnCounters, c < RESPAWN_POOL_SIZE := by
    intro c hc
    simp [stW] at hc
    simp [hc, RESPAWN_POOL_SIZE]
  have h := runUpdates_bounded envW [(0, 1 / 100)] stW h16
  exact ⟨h16, h.1, h.2.1, h.2.2.1, h.2.2.2.2.2.2.2.2.2⟩

lemma integratedPos_envW : integratedPos envW 0 (1 / 100) stW 0 = (10, 0) := by
  simp [integratedPos, envW, stW]
  norm_num

lemma outOfBounds_envW :
    outOfBounds (integratedPos envW 0 (1 / 100) stW 0).1
      (integratedPos envW 0 (1 / 100) stW 0).2 := by
  rw [integratedPos_envW]
  exact Or.inr (Or.inl (by norm_num [outOfBounds]))

/-- Witness for C8's amended theorem at the concrete engine: the crossing
particle respawns onto a pool entry with age `min(delta, 0.05) * 0.5`. -/
theorem update_respawn_from_pool_witness :
    (1 ≤ envW.trailSegments ∧ 0 < envW.particleCount ∧
     stW.headPositions.length = envW.particleCount * 3 ∧
     stW.buffers.ages.length = envW.particleCount * envW.trailSegments ∧
     stW.buffers.positions.length =
       envW.particleCount * envW.trailSegments * 3 ∧
     stW.respawnCounters.getD 0 0 < RESPAWN_POOL_SIZE ∧
     outOfBounds (integratedPos envW 0 (1 / 100) stW 0).1
       (integratedPos envW 0 (1 / 100) stW 0).2) ∧
    (∃ r < RESPAWN_POOL_SIZE,
      (update envW 0 (1 / 100) stW).headPositions.getD (0 * 3) 0 =
        (stW.buffers.respawnData.getD (0 * RESPAWN_POOL_SIZE + r) (0, 0)).1 ∧
      (update envW 0 (1 / 100) stW).headPositions.getD (0 * 3 + 1) 0 =
        (stW.buffers.respawnData.getD (0 * RESPAWN_POOL_SIZE + r) (0, 0)).2 ∧
      (update envW 0 (1 / 100) stW).buffers.positions.getD
          (0 * envW.trailSegments * 3) 0 =
        (stW.buffers.respawnData.getD (0 * RESPAWN_POOL_SIZE + r) (0, 0)).1 ∧
      (update envW 0 (1 / 100) stW).buffers.positions.getD
          (0 * envW.trailSegments * 3 + 1) 0 =
        (stW.buffers.respawnData.getD (0 * RESPAWN_POOL_SIZE + r) (0, 0)).2 ∧
      (update envW 0 (1 / 100) stW).buffers.ages.getD
          (0 * envW.trailSegments) 0 = min (min (1 / 100) 0.05 * 0.5) 1) := by
  refine ⟨⟨by decide, by decide, by decide, by decide, by decide, by decide,
    outOfBounds_envW⟩, ?_⟩
  exact update_respawn_from_pool envW 0 (1 / 100) stW 0 (by decide) (by decide)
    (by decide) (by decide) (by decide) (by decide) outOfBounds_envW

/-- Counterexample to C8 as stated: at the concrete engine the particle
crosses the boundary and respawns during the update, but its head age after
the update is `0.005` (the respawn zeroes it and the same frame's aging step
advances it), not `0`. -/
theorem update_respawn_age_counterexample :
    outOfBounds (integratedPos envW 0 (1 / 100) stW 0).1
      (integratedPos envW 0 (1 / 100) stW 0).2 ∧
    (update envW 0 (1 / 100) stW).buffers.ages.getD
      (0 * envW.trailSegments) 0 ≠ 0 := by
  refine ⟨outOfBounds_envW, ?_⟩
  have hupd : update envW 0 (1 / 100) stW =
      updateParticle envW 0 (1 / 100) stW 0 := by
    unfold update
    have h1 : envW.particleCount = 1 := rfl
    rw [h1]
    simp [List.range_succ]
  have h := updateParticle_respawn envW 0 (1 / 100) stW 0 (by decide)
    (by decide) (by decide) (by decide) (by decide) outOfBounds_envW
  rw [hupd, h.2.2.2.2]
  norm_num

/-- Constant stream used to instantiate the abstract PRNG at concrete
inputs. -/
def rndHalf : ℕ → ℚ := fun _ => 1 / 2

/-- Witness for C10 at the constant stream and a one-particle pool: the
entry is on the margin band and the counter advances at most once. -/
theorem respawn_pool_entries_witness :
    (∀ n, 0 ≤ rndHalf n ∧ rndHalf n ≤ 1) ∧ 0 < 1 * RESPAWN_POOL_SIZE ∧
    (((((createParticleBuffers rndHalf 1 2).respawnData.getD 0 (0, 0)).1 = 1.05 ∨
       ((createParticleBuffers rndHalf 1 2).respawnData.getD 0 (0, 0)).1 = -1.05) ∧
      -1 ≤ ((createParticleBuffers rndHalf 1 2).respawnData.getD 0 (0, 0)).2 ∧
      ((createParticleBuffers rndHalf 1 2).respawnData.getD 0 (0, 0)).2 ≤ 1) ∨
     ((((createParticleBuffers rndHalf 1 2).respawnData.getD 0 (0, 0)).2 = 1.05 ∨
       ((createParticleBuffers rndHalf 1 2).respawnData.getD 0 (0, 0)).2 = -1.05) ∧
      -1 ≤ ((createParticleBuffers rndHalf 1 2).respawnData.getD 0 (0, 0)).1 ∧
      ((createParticleBuffers rndHalf 1 2).respawnData.getD 0 (0, 0)).1 ≤ 1)) ∧
    ¬ outOfBounds ((createParticleBuffers rndHalf 1 2).respawnData.getD 0
        (0, 0)).1
      ((createParticleBuffers rndHalf 1 2).respawnData.getD 0 (0, 0)).2 ∧
    ((update envW 0 (1 / 100) stW).respawnCounters.getD 0 0 =
        stW.respawnCounters.getD 0 0 ∨
      (update envW 0 (1 / 100) stW).respawnCounters.getD 0 0 =
        (stW.respawnCounters.getD 0 0 + 1) % RESPAWN_POOL_SIZE) := by
  have hr : ∀ n, 0 ≤ rndHalf n ∧ rndHalf n ≤ 1 := by
    intro n
    constructor <;> norm_num [rndHalf]
  exact ⟨hr, by decide,
    respawn_pool_entries rndHalf hr 1 2 0 (by decide) envW 0 (1 / 100) stW 0⟩

end Ink
